import Mathlib

/-!
# Verification of the guided conversational task-creation flow

This development is a shallow embedding of the chat agent of a task-management
backend (`src/backend/src/agent/chat_agent.py` together with the conversation
model `src/backend/src/models/conversation.py`).  The agent is a server-persisted
finite-state machine that collects task fields one chat turn at a time
(title, description, category, priority, due date, recurrence, tags), detects
direct intents, extracts JSON actions from the text of an external LLM oracle,
and dispatches domain operations.

Modelling conventions:
* Python dictionaries holding pending task fields become a `Pending` structure
  whose fields are `Option`s; the empty dictionary is the structure with every
  field `none`.
* Fallible Python calls (database services, the HTTP oracle) are supplied by an
  `Env` record of oracle functions returning `Except PyErr`; side effects
  (created tasks, attempted tag creations, tag attachments) are recorded in an
  explicit `World` value threaded through the computation.
* Python exceptions are values of `PyErr`; a `try/except` block becomes a
  `match` on the `Except` result.  A Python function that can raise returns
  `Except PyErr α`; one that catches everything returns a pure value.
* The regex-based direct intent detector (`_detect_direct_intent`) is a pure
  function of the message; it is supplied as the `detect` component of `Env`,
  and every theorem below holds for an arbitrary detector.
* `datetime` values are opaque `DT` records carrying their `isoformat` and
  `strftime` renderings; arithmetic such as `now + timedelta(days=1)` is
  supplied by the environment (`tomorrow`, `nextWeek`).
* JSON numbers are modelled as integers, which covers every numeric payload the
  agent manipulates.
-/

/-! ## Python string primitives -/

/-- Python `str.lower` (ASCII case mapping), computable in the kernel. -/
def String.pyLower (s : String) : String := String.mk (s.data.map Char.toLower)

/-- Python `str.strip`: drop leading and trailing whitespace. -/
def String.pyStrip (s : String) : String :=
  String.mk (((s.data.dropWhile Char.isWhitespace).reverse.dropWhile
    Char.isWhitespace).reverse)

/-- Decimal value of a digit run. -/
def pyDigitsToNat (cs : List Char) : Nat :=
  cs.foldl (fun acc c => 10 * acc + (c.toNat - 48)) 0

/-- Leftmost non-overlapping split on a non-empty pattern (Python
`str.split(sep)` semantics), with explicit fuel. -/
def pySplitOnGo (pat : List Char) : Nat → List Char → List Char → List (List Char)
  | _, [], acc => [acc.reverse]
  | 0, cs, acc => [acc.reverse ++ cs]
  | fuel + 1, c :: rest, acc =>
      if pat.isPrefixOf (c :: rest) then
        acc.reverse :: pySplitOnGo pat fuel ((c :: rest).drop pat.length) []
      else pySplitOnGo pat fuel rest (c :: acc)

/-- Python `str.split(sep)` for a non-empty separator. -/
def pySplitOn (s pat : String) : List String :=
  if pat = "" then [s] else (pySplitOnGo pat.data s.length s.data []).map String.mk

/-- Python `needle in haystack` substring test (empty needle is always found). -/
def pyIn (needle haystack : String) : Bool :=
  needle = "" || (pySplitOn haystack needle).length > 1

/-- Python `str.replace` for a non-empty pattern (leftmost, non-overlapping). -/
def pyReplace (s pat repl : String) : String :=
  if pat = "" then s else String.intercalate repl (pySplitOn s pat)

/-- Python `str.isdigit` restricted to ASCII digits: non-empty and all digits. -/
def pyIsDigit (s : String) : Bool :=
  !s.data.isEmpty && s.data.all Char.isDigit

/-- Python `int(s)` on a digit string. -/
def pyInt (s : String) : Nat := pyDigitsToNat s.data

/-- One character of Python `str.title`: uppercase after a non-letter, lowercase
otherwise. -/
def pyTitleGo : List Char → Bool → List Char
  | [], _ => []
  | c :: cs, prevAlpha =>
      (if c.isAlpha then (if prevAlpha then c.toLower else c.toUpper) else c)
        :: pyTitleGo cs c.isAlpha

/-- Python `str.title`. -/
def pyTitle (s : String) : String := String.mk (pyTitleGo s.data false)

/-- Python `c.isascii() and c.isalpha()`. -/
def pyAsciiAlpha (c : Char) : Bool := c.toNat ≤ 127 && c.isAlpha

/-- Index of the first occurrence of a character (Python `str.find`). -/
def pyFind (s : String) (c : Char) : Int :=
  match s.data.findIdx? (· = c) with
  | some i => (i : Int)
  | none => -1

/-- Index of the last occurrence of a character (Python `str.rfind`). -/
def pyRFind (s : String) (c : Char) : Int :=
  match s.data.reverse.findIdx? (· = c) with
  | some i => ((s.data.length - 1 - i : Nat) : Int)
  | none => -1

/-- Python slice `s[a : b]` for natural indices. -/
def pySlice (s : String) (a b : Nat) : String :=
  String.mk ((s.data.take b).drop a)

/-- Python `message.replace(",", " ").split()`: split on whitespace, dropping
empty tokens. -/
def pyWhitespaceSplit (s : String) : List String :=
  ((s.data.splitOnP Char.isWhitespace).map String.mk).filter (· ≠ "")

/-- The opening brace character, `{`. -/
def openBrace : Char := Char.ofNat 123

/-- The closing brace character, `}`. -/
def closeBrace : Char := Char.ofNat 125

/-- Word characters for the hashtag regex `#(\w+)`. -/
def isWordChar (c : Char) : Bool := c.isAlphanum || c = '_'

/-- Extract all hashtag tokens, mirroring `re.findall` of a hash sign followed
by one or more word characters, the capture being the word-character run. -/
def pyHashtagsGo : Nat → List Char → List String
  | 0, _ => []
  | _, [] => []
  | fuel + 1, c :: cs =>
      if c = '#' && !(cs.takeWhile isWordChar).isEmpty then
        String.mk (cs.takeWhile isWordChar) :: pyHashtagsGo fuel (cs.dropWhile isWordChar)
      else pyHashtagsGo fuel cs

/-- All hashtag tokens of a string. -/
def pyHashtags (s : String) : List String := pyHashtagsGo s.length s.data

/-! ## JSON values and a strict parser (model of Python `json.loads`) -/

/-- JSON values.  Numbers are modelled as integers: every numeric field the
agent reads (`task_id`, `subtask_id`) is an integer. -/
inductive Json where
  | null : Json
  | bool (b : Bool) : Json
  | num (n : Int) : Json
  | str (s : String) : Json
  | arr (xs : List Json) : Json
  | obj (kvs : List (String × Json)) : Json
deriving Repr, Inhabited

/-- Look up a key in a JSON object association list; as in a Python `dict`
built by `json.loads`, the last binding for a key wins. -/
def Json.objGet (kvs : List (String × Json)) (k : String) : Option Json :=
  match kvs.reverse.find? (fun kv => kv.1 = k) with
  | some kv => some kv.2
  | none => none

/-- Python truthiness of a decoded JSON value. -/
def Json.truthy : Json → Bool
  | .null => false
  | .bool b => b
  | .num n => n ≠ 0
  | .str s => s ≠ ""
  | .arr xs => !xs.isEmpty
  | .obj kvs => !kvs.isEmpty

/-- JSON whitespace skipping. -/
def jsonSkipWs : List Char → List Char
  | [] => []
  | c :: cs => if c = ' ' || c = '\t' || c = '\n' || c = '\r' then jsonSkipWs cs else c :: cs

/-- Value of one hexadecimal digit. -/
def hexVal (c : Char) : Option Nat :=
  if c.isDigit then some (c.toNat - 48)
  else if 'a' ≤ c && c ≤ 'f' then some (c.toNat - 87)
  else if 'A' ≤ c && c ≤ 'F' then some (c.toNat - 55)
  else none

/-- Decode one JSON string escape; returns the decoded character and the rest. -/
def jsonEscape : List Char → Option (Char × List Char)
  | [] => none
  | c :: cs =>
      if c = '"' then some ('"', cs)
      else if c = '\\' then some ('\\', cs)
      else if c = '/' then some ('/', cs)
      else if c = 'b' then some (Char.ofNat 8, cs)
      else if c = 'f' then some (Char.ofNat 12, cs)
      else if c = 'n' then some ('\n', cs)
      else if c = 'r' then some ('\r', cs)
      else if c = 't' then some ('\t', cs)
      else if c = 'u' then
        match cs with
        | h1 :: h2 :: h3 :: h4 :: rest =>
            match hexVal h1, hexVal h2, hexVal h3, hexVal h4 with
            | some a, some b, some c3, some d =>
                some (Char.ofNat (4096 * a + 256 * b + 16 * c3 + d), rest)
            | _, _, _, _ => none
        | _ => none
      else none

/-- Parse the body of a JSON string literal (after the opening quote). -/
def jsonString (fuel : Nat) : List Char → Option (String × List Char)
  | [] => none
  | c :: cs =>
      match fuel with
      | 0 => none
      | fuel + 1 =>
          if c = '"' then some ("", cs)
          else if c = '\\' then
            match jsonEscape cs with
            | some (d, rest) =>
                match jsonString fuel rest with
                | some (s, rest2) => some (String.mk (d :: s.data), rest2)
                | none => none
            | none => none
          else
            match jsonString fuel cs with
            | some (s, rest) => some (String.mk (c :: s.data), rest)
            | none => none

/-- Parse a JSON integer (optional minus sign, digit run); a following `.`,
`e` or `E` (a float) is rejected by the top level because the remaining
characters would not be consumed. -/
def jsonNumber : List Char → Option (Int × List Char)
  | cs =>
      let (neg, cs') := match cs with
        | '-' :: rest => (true, rest)
        | _ => (false, cs)
      let digits := cs'.takeWhile Char.isDigit
      let rest := cs'.dropWhile Char.isDigit
      if digits.isEmpty then none
      else
        let n : Int := (pyDigitsToNat digits : Int)
        some (if neg then -n else n, rest)

mutual

/-- Parse one JSON value with explicit fuel; returns the value and the unread
rest.  Mirrors the strict recursive-descent grammar of Python `json.loads`
(restricted to integer numerals). -/
def jsonValue : Nat → List Char → Option (Json × List Char)
  | 0, _ => none
  | fuel + 1, cs =>
      match jsonSkipWs cs with
      | [] => none
      | c :: rest =>
          if c = '"' then
            match jsonString (fuel + 1) rest with
            | some (s, rest2) => some (.str s, rest2)
            | none => none
          else if c = 't' then
            match rest with
            | 'r' :: 'u' :: 'e' :: rest2 => some (.bool true, rest2)
            | _ => none
          else if c = 'f' then
            match rest with
            | 'a' :: 'l' :: 's' :: 'e' :: rest2 => some (.bool false, rest2)
            | _ => none
          else if c = 'n' then
            match rest with
            | 'u' :: 'l' :: 'l' :: rest2 => some (.null, rest2)
            | _ => none
          else if c = '[' then
            match jsonSkipWs rest with
            | ']' :: rest2 => some (.arr [], rest2)
            | _ => jsonArrayItems fuel (jsonSkipWs rest) []
          else if c = openBrace then
            match jsonSkipWs rest with
            | d :: rest2 =>
                if d = closeBrace then some (.obj [], rest2)
                else jsonObjectItems fuel (jsonSkipWs rest) []
            | [] => none
          else
            match jsonNumber (c :: rest) with
            | some (n, rest2) => some (.num n, rest2)
            | none => none

/-- Parse the comma-separated items of a JSON array, accumulating in order. -/
def jsonArrayItems : Nat → List Char → List Json → Option (Json × List Char)
  | 0, _, _ => none
  | fuel + 1, cs, acc =>
      match jsonValue fuel cs with
      | some (v, rest) =>
          match jsonSkipWs rest with
          | ',' :: rest2 => jsonArrayItems fuel rest2 (acc ++ [v])
          | ']' :: rest2 => some (.arr (acc ++ [v]), rest2)
          | _ => none
      | none => none

/-- Parse the comma-separated members of a JSON object, accumulating in order. -/
def jsonObjectItems : Nat → List Char → List (String × Json) →
    Option (Json × List Char)
  | 0, _, _ => none
  | fuel + 1, cs, acc =>
      match jsonSkipWs cs with
      | c :: rest =>
          if c = '"' then
            match jsonString (fuel + 1) rest with
            | some (k, rest2) =>
                match jsonSkipWs rest2 with
                | ':' :: rest3 =>
                    match jsonValue fuel rest3 with
                    | some (v, rest4) =>
                        match jsonSkipWs rest4 with
                        | ',' :: rest5 => jsonObjectItems fuel rest5 (acc ++ [(k, v)])
                        | d :: rest5 =>
                            if d = closeBrace then some (.obj (acc ++ [(k, v)]), rest5)
                            else none
                        | [] => none
                    | none => none
                | _ => none
            | none => none
          else none
      | [] => none

end

/-- Python `json.loads`: parse a complete JSON document, requiring that only
whitespace remains afterwards. -/
def jsonLoads (s : String) : Option Json :=
  match jsonValue (s.length + 1) s.data with
  | some (v, rest) => if jsonSkipWs rest = [] then some v else none
  | none => none

/-! ## Domain data model (src/backend/src/models) -/

/-- An opaque `datetime` value carrying its `isoformat()` rendering and its
`strftime` year-month-day rendering. -/
structure DT where
  iso : String
  ymd : String
  rel : String
deriving Repr, DecidableEq, Inhabited

/-- `TaskPriority` from `src/backend/src/models/enums.py`. -/
inductive TaskPriority where
  | critical | high | medium | low
deriving Repr, DecidableEq, Inhabited

/-- The string value of a priority (`TaskPriority.__str__` returns `.value`). -/
def TaskPriority.value : TaskPriority → String
  | .critical => "critical"
  | .high => "high"
  | .medium => "medium"
  | .low => "low"

/-- `RecurrencePattern` from `src/backend/src/models/enums.py` (the agent only
ever produces the first three). -/
inductive RecurrencePattern where
  | daily | weekly | monthly | custom
deriving Repr, DecidableEq, Inhabited

/-- The string value of a recurrence pattern. -/
def RecurrencePattern.value : RecurrencePattern → String
  | .daily => "daily"
  | .weekly => "weekly"
  | .monthly => "monthly"
  | .custom => "custom"

/-- A category row as the agent sees it (`id`, `name`, `icon` dictionary built
in `_get_available_categories`; the icon column is nullable). -/
structure Category where
  id : Nat
  name : String
  icon : Option String
deriving Repr, DecidableEq, Inhabited

/-- A persisted task entity (the fields of `TaskEntity` the agent reads; `priority`
and `recurrence_pattern` are stored as strings by `TaskService.create_task`). -/
structure TaskEntity where
  id : Nat
  title : String
  description : Option String
  is_completed : Bool
  category_id : Option Nat
  priority : String
  due_date : Option DT
  recurrence_pattern : Option String
deriving Repr, DecidableEq, Inhabited

/-- A subtask entity. -/
structure Subtask where
  id : Nat
  title : String
  parent_task_id : Nat
  is_completed : Bool
deriving Repr, DecidableEq, Inhabited

/-- `TaskCreate` from `src/backend/src/models/task.py`. -/
structure TaskCreate where
  title : String
  description : Option String
  is_completed : Bool
  priority : TaskPriority
  due_date : Option DT
  category_id : Option Nat
  recurrence_pattern : Option RecurrencePattern
  recurrence_interval : Nat
deriving Repr, DecidableEq, Inhabited

/-- `TaskUpdate` (only the fields the agent sets). -/
structure TaskUpdate where
  title : Option String := none
  description : Option String := none
  is_completed : Option Bool := none
deriving Repr, DecidableEq, Inhabited

/-! ## Exceptions, environment oracles and the effect log -/

/-- A Python exception value: the agent distinguishes `ValueError` (whose
message is surfaced verbatim) from any other `Exception`. -/
inductive PyErr where
  | valueError (msg : String)
  | exc (msg : String)
deriving Repr, DecidableEq, Inhabited

/-- `str(e)` of an exception. -/
def PyErr.msg : PyErr → String
  | .valueError m => m
  | .exc m => m

/-- The outcome of one HTTP completion request in `_call_openrouter`: a 2xx
body, a non-2xx status (raised as `httpx.HTTPStatusError` and re-raised as a
generic exception), or any other raised failure such as a timeout. -/
inductive OracleOutcome where
  | ok (text : String)
  | httpError (status : Nat) (detail : String)
  | raise (e : PyErr)
deriving Repr, DecidableEq, Inhabited

/-- The external collaborators of the agent: the regex intent detector (a pure
function of the message, supplied abstractly), the LLM oracle endpoints, the
database-backed services, and the natural-language date parser. -/
structure Env where
  detect : String → Option (List (String × Json))
  completion : String → OracleOutcome
  genDescription : String → Except PyErr String
  translate : String → Except PyErr String
  categoriesResult : Except PyErr (List Category)
  createOrGetCategory : String → Except PyErr Category
  dbInsertTask : TaskCreate → Except PyErr Nat
  createTag : String → Except PyErr Nat
  addTagToTask : Nat → Nat → Except PyErr Unit
  parseNaturalDate : String → Option DT
  fromIso : String → Option DT
  tomorrow : DT
  nextWeek : DT
  getTasks : Except PyErr (List TaskEntity)
  searchTasks : String → Except PyErr (List TaskEntity)
  getTaskById : Json → Except PyErr (Option TaskEntity)
  updateTask : Json → TaskUpdate → Except PyErr (Option TaskEntity)
  deleteTask : Json → Except PyErr Bool
  getSubtaskById : Json → Except PyErr (Option Subtask)
  createSubtask : Json → String → Except PyErr Subtask
  updateSubtaskComplete : Json → Except PyErr (Option Subtask)
  deleteSubtask : Json → Except PyErr Bool

/-- The log of externally visible side effects: tasks inserted, tag creations
attempted (the call was made), tags actually created, and tag-task
attachments performed. -/
structure World where
  createdTasks : List TaskEntity := []
  tagAttempts : List String := []
  createdTags : List (String × Nat) := []
  attachments : List (Nat × Nat) := []
deriving Repr, DecidableEq, Inhabited

/-- The row `TaskService.create_task` builds from the `TaskCreate` data (enum
values lowered to strings) once the database has assigned the id. -/
def taskOf (td : TaskCreate) (tid : Nat) : TaskEntity :=
  { id := tid, title := td.title, description := td.description,
    is_completed := td.is_completed, category_id := td.category_id,
    priority := td.priority.value, due_date := td.due_date,
    recurrence_pattern := td.recurrence_pattern.map RecurrencePattern.value }

/-- `TaskService.create_task`: builds the row from the `TaskCreate` data and
inserts it; the database assigns the id. -/
def TaskService.createTask (env : Env) (w : World) (td : TaskCreate) :
    Except PyErr TaskEntity × World :=
  match env.dbInsertTask td with
  | .error e => (.error e, w)
  | .ok tid =>
      (.ok (taskOf td tid), { w with createdTasks := w.createdTasks ++ [taskOf td tid] })

/-- `TagService.create_tag`: the attempt is logged before the outcome. -/
def TagService.createTag (env : Env) (w : World) (name : String) :
    Except PyErr Nat × World :=
  let w1 := { w with tagAttempts := w.tagAttempts ++ [name] }
  match env.createTag name with
  | .ok tid => (.ok tid, { w1 with createdTags := w1.createdTags ++ [(name, tid)] })
  | .error e => (.error e, w1)

/-- `TagService.add_tag_to_task`. -/
def TagService.addTagToTask (env : Env) (w : World) (taskId tagId : Nat) :
    Except PyErr Unit × World :=
  match env.addTagToTask taskId tagId with
  | .ok _ => (.ok (), { w with attachments := w.attachments ++ [(taskId, tagId)] })
  | .error e => (.error e, w)

/-! ## Conversation state (src/backend/src/models/conversation.py) -/

/-- The pending-task dictionary deserialized from `pending_task_json`.  Every
key the agent ever writes is a field; the empty dictionary is the record with
every field `none`.  `available_categories` models the transient
underscore-prefixed category list stored by `_format_category_options`. -/
structure Pending where
  title : Option String := none
  description : Option String := none
  category_id : Option Nat := none
  category_name : Option String := none
  new_category_name : Option String := none
  priority : Option String := none
  due_date : Option String := none
  recurrence_pattern : Option String := none
  tags : Option (List String) := none
  available_categories : Option (List Category) := none
deriving Repr, DecidableEq, Inhabited

/-- The empty pending dictionary. -/
def Pending.empty : Pending := {}

/-- A `Conversation` row as the agent mutates it: the guided-flow state string
(a nullable column defaulting to `"idle"`) and the pending-task data. -/
structure Conv where
  guided_state : Option String := some "idle"
  pending : Pending := {}
deriving Repr, DecidableEq, Inhabited

/-- The conversation-state constants of `ConversationState`. -/
def ConversationState.IDLE : String := "idle"

/-- State: waiting for the task title. -/
def ConversationState.AWAITING_TITLE : String := "awaiting_title"

/-- State: waiting for the description. -/
def ConversationState.AWAITING_DESCRIPTION : String := "awaiting_description"

/-- State: waiting for the category selection. -/
def ConversationState.AWAITING_CATEGORY : String := "awaiting_category"

/-- State: waiting for the priority selection. -/
def ConversationState.AWAITING_PRIORITY : String := "awaiting_priority"

/-- State: waiting for the due date. -/
def ConversationState.AWAITING_DUE_DATE : String := "awaiting_due_date"

/-- State: waiting for the recurrence pattern. -/
def ConversationState.AWAITING_RECURRENCE : String := "awaiting_recurrence"

/-- State: waiting for the tags. -/
def ConversationState.AWAITING_TAGS : String := "awaiting_tags"

/-- State: defined in the source but never entered by any transition. -/
def ConversationState.AWAITING_CONFIRMATION : String := "awaiting_confirmation"

/-- A reply dictionary returned by the agent: the `type` tag, the `content`
string, and the optional `step`, `task`, `tasks` and `subtask` payloads. -/
structure Reply where
  rtype : String
  content : String
  step : Option String := none
  task : Option Json := none
  tasks : Option Json := none
  subtask : Option Json := none
deriving Repr, Inhabited

/-! ## ChatAgent: state accessors and response parsing -/

/-- Python truthiness filter on an optional string: `None` and `""` are falsy. -/
def pyOptStr : Option String → Option String
  | some s => if s = "" then none else some s
  | none => none

/-- `_get_state`: the stored state string, defaulting to IDLE when the column
is null or empty (falsy). -/
def ChatAgent.get_state (c : Conv) : String :=
  match c.guided_state with
  | some s => if s = "" then ConversationState.IDLE else s
  | none => ConversationState.IDLE

/-- `_set_state`. -/
def Conv.setState (c : Conv) (s : String) : Conv := { c with guided_state := some s }

/-- Apply an update to the pending-task dictionary (`_update_pending_task`). -/
def Conv.updPending (c : Conv) (f : Pending → Pending) : Conv :=
  { c with pending := f c.pending }

/-- `_clear_pending_task`: state back to IDLE and pending data emptied. -/
def Conv.cleared : Conv :=
  { guided_state := some ConversationState.IDLE, pending := {} }

/-- The skip keywords accepted at every optional step. -/
def skipWords : List String := ["skip", "چھوڑیں", "نہیں", "no", "none", "-"]

/-- The cancellation keywords checked at the top of `process_message`. -/
def cancelWords : List String := ["cancel", "منسوخ", "رکو", "stop", "exit", "quit"]

/-- The result of `_parse_user_response`: one constructor per shape of the
returned dictionary (`skip`, field value, category reference, new category
name, parsed date, date-parse error, tag list, or plain text). -/
inductive PUR where
  | skip
  | pvalue (v : String)
  | rvalue (v : Option String)
  | cvalue (id : Nat) (name : String)
  | newCategory (s : String)
  | dvalue (d : DT)
  | derror
  | tagsValue (ts : List String)
  | text (s : String)
deriving Repr, DecidableEq

/-- The priority keyword dictionary with default `"medium"`. -/
def priorityMapGet (s : String) : String :=
  if s ∈ (["1", "critical", "فوری"] : List String) then "critical"
  else if s ∈ (["2", "high", "اہم"] : List String) then "high"
  else if s ∈ (["3", "medium", "درمیانہ"] : List String) then "medium"
  else if s ∈ (["4", "low", "کم"] : List String) then "low"
  else "medium"

/-- The recurrence keyword dictionary (no default: missing keys give `None`). -/
def recurrenceMapGet (s : String) : Option String :=
  if s ∈ (["1", "daily", "روزانہ"] : List String) then some "daily"
  else if s ∈ (["2", "weekly", "ہفتہ وار"] : List String) then some "weekly"
  else if s ∈ (["3", "monthly", "ماہانہ"] : List String) then some "monthly"
  else none

/-- `_parse_user_response(message, field)`: skip check first, then the
field-specific interpretation. -/
def ChatAgent.parse_user_response (env : Env) (pending : Pending)
    (message field : String) : PUR :=
  let msg_lower := message.pyLower.pyStrip
  if msg_lower ∈ skipWords then .skip
  else if field = "priority" then .pvalue (priorityMapGet msg_lower)
  else if field = "recurrence" then .rvalue (recurrenceMapGet msg_lower)
  else if field = "category" then
    let categories := pending.available_categories.getD []
    let byIdx : Option Category :=
      if pyIsDigit msg_lower then
        let idx : Int := (pyInt msg_lower : Int) - 1
        if 0 ≤ idx && idx < (categories.length : Int) then categories.get? idx.toNat
        else none
      else none
    match byIdx with
    | some cat => .cvalue cat.id cat.name
    | none =>
        match categories.find? (fun cat => cat.name.pyLower = msg_lower) with
        | some cat => .cvalue cat.id cat.name
        | none => .newCategory message.pyStrip
  else if field = "due_date" then
    if msg_lower ∈ (["tomorrow", "کل"] : List String) then .dvalue env.tomorrow
    else if msg_lower ∈ (["next week", "اگلا ہفتہ", "اگلے ہفتے"] : List String) then
      .dvalue env.nextWeek
    else
      match env.parseNaturalDate message with
      | some d => .dvalue d
      | none =>
          match env.fromIso (pyReplace message "Z" "+00:00") with
          | some d => .dvalue d
          | none => .derror
  else if field = "tags" then
    if pyIn "#" message then .tagsValue (pyHashtags message)
    else .tagsValue (pyWhitespaceSplit (pyReplace message "," " "))
  else .text message.pyStrip

/-- `_get_available_categories`: any fetch failure is caught and yields `[]`. -/
def ChatAgent.get_available_categories (env : Env) : List Category :=
  match env.categoriesResult with
  | .ok cs => cs
  | .error _ => []

/-- Rendering of one category line; a null icon prints as Python `None`. -/
def categoryLine (i : Nat) (cat : Category) : String :=
  toString (i + 1) ++ ". " ++ (match cat.icon with | some ic => ic | none => "None")
    ++ " " ++ cat.name

/-- `_format_category_options`: stores the fetched category list into the
pending data and renders the numbered menu. -/
def ChatAgent.format_category_options (env : Env) (lang : String) (p : Pending) :
    String × Pending :=
  let categories := ChatAgent.get_available_categories env
  let p1 := { p with available_categories := some categories }
  if categories.isEmpty then
    (if lang = "ur" then
      "کوئی کیٹیگری دستیاب نہیں۔ آپ ایک نئی کیٹیگری کا نام لکھ سکتے ہیں یا 'skip' کہیں۔"
     else "No categories available. You can type a new category name or say 'skip'.", p1)
  else
    let options := String.intercalate "\n"
      (categories.enum.map (fun ic => categoryLine ic.1 ic.2))
    (if lang = "ur" then
      "کیٹیگری منتخب کریں:\n" ++ options
        ++ "\n\n(نمبر لکھیں، نام لکھیں، نئی کیٹیگری کا نام لکھیں، یا 'skip' کہیں)"
     else
      "Select a category:\n" ++ options
        ++ "\n\n(Enter number, name, type a new category, or say 'skip')", p1)

/-- `_format_priority_options`. -/
def ChatAgent.format_priority_options (lang : String) : String :=
  if lang = "ur" then
    "ترجیح منتخب کریں:\n1. 🔴 Critical (فوری)\n2. 🟠 High (اہم)\n3. 🟡 Medium (درمیانہ) - پہلے سے منتخب\n4. 🟢 Low (کم)\n\n(نمبر یا نام لکھیں، یا 'skip' کہیں)"
  else
    "Select priority:\n1. 🔴 Critical\n2. 🟠 High\n3. 🟡 Medium (default)\n4. 🟢 Low\n\n(Enter number, name, or say 'skip')"

/-- `_format_recurrence_options`. -/
def ChatAgent.format_recurrence_options (lang : String) : String :=
  if lang = "ur" then
    "دہرائی کا پیٹرن منتخب کریں:\n1. 📅 Daily (روزانہ)\n2. 📆 Weekly (ہفتہ وار)\n3. 🗓️ Monthly (ماہانہ)\n\n(نمبر یا نام لکھیں، یا 'skip' کہیں - یہ ایک بار کا کام ہوگا)"
  else
    "Select recurrence pattern:\n1. 📅 Daily\n2. 📆 Weekly\n3. 🗓️ Monthly\n\n(Enter number, name, or say 'skip' for one-time task)"

/-- `_generate_description`: the oracle text is stripped of prefixes; any
failure falls back to a fixed localized description. -/
def ChatAgent.generate_description (env : Env) (lang title : String) : String :=
  match env.genDescription title with
  | .ok d =>
      (pyReplace (pyReplace (d.pyStrip) "Description:" "") "تفصیل:" "").pyStrip
  | .error _ =>
      if lang = "ur" then "'" ++ title ++ "' کا کام مکمل کریں"
      else "Complete the task: " ++ title

/-- `_translate_to_urdu`: a failed translation returns the English text. -/
def ChatAgent.translate_to_urdu (env : Env) (english_text : String) : String :=
  match env.translate english_text with
  | .ok t => t.pyStrip
  | .error _ => english_text

/-- The substring keywords that trigger AI description generation at the
description step. -/
def generateKeywords : List String :=
  ["write", "generate", "create", "suggest", "you write", "tum likho", "آپ لکھیں", "خود لکھو"]

/-- The English priority display labels, with the raw value as fallback. -/
def priorityLabelEn (v : String) : String :=
  if v = "critical" then "🔴 Critical"
  else if v = "high" then "🟠 High"
  else if v = "medium" then "🟡 Medium"
  else if v = "low" then "🟢 Low"
  else v

/-- The Urdu priority display labels, with the raw value as fallback. -/
def priorityLabelUr (v : String) : String :=
  if v = "critical" then "🔴 فوری"
  else if v = "high" then "🟠 اہم"
  else if v = "medium" then "🟡 درمیانہ"
  else if v = "low" then "🟢 کم"
  else v

/-- The Urdu recurrence display labels, with the raw value as fallback. -/
def recurLabelUr (v : String) : String :=
  if v = "daily" then "روزانہ"
  else if v = "weekly" then "ہفتہ وار"
  else if v = "monthly" then "ماہانہ"
  else v

/-! ## Guided-flow finalization (`_finalize_guided_task`) -/

/-- The priority-string-to-enum dictionary of `_finalize_guided_task`, with
default `TaskPriority.MEDIUM`. -/
def priorityToEnum (s : String) : TaskPriority :=
  if s = "critical" then .critical
  else if s = "high" then .high
  else if s = "medium" then .medium
  else if s = "low" then .low
  else .medium

/-- The recurrence-string-to-enum dictionary of `_finalize_guided_task`
(missing keys give `None`). -/
def recurrenceToEnum (s : String) : Option RecurrencePattern :=
  if s = "daily" then some .daily
  else if s = "weekly" then some .weekly
  else if s = "monthly" then some .monthly
  else none

/-- Resolve the category id during finalization: create the brand-new category
when one was named (title-cased), otherwise use the selected id, if any. -/
def finalizeCategoryId (env : Env) (pending : Pending) : Except PyErr (Option Nat) :=
  match pyOptStr pending.new_category_name with
  | some ncn =>
      match env.createOrGetCategory (pyTitle ncn.pyStrip) with
      | .ok cat => .ok (some cat.id)
      | .error e => .error e
  | none => .ok pending.category_id

/-- The best-effort tag loop of finalization: every tag with non-blank name is
attempted; a failure of creation or attachment of one tag is caught and the
loop continues with the remaining tags. -/
def finalizeTagLoop (env : Env) (taskId : Nat) : List String → World → World
  | [], w => w
  | t :: ts, w =>
      if t ≠ "" && t.pyStrip ≠ "" then
        match TagService.createTag env w t.pyStrip with
        | (.ok tagId, w2) =>
            match TagService.addTagToTask env w2 taskId tagId with
            | (_, w3) => finalizeTagLoop env taskId ts w3
        | (.error _, w2) => finalizeTagLoop env taskId ts w2
      else finalizeTagLoop env taskId ts w

/-- The JSON payload of a created task attached to the reply. -/
def taskJson (task : TaskEntity) : Json :=
  .obj [("id", .num task.id), ("title", .str task.title),
        ("description", match task.description with | some d => .str d | none => .null),
        ("is_completed", .bool task.is_completed),
        ("category_id", match task.category_id with | some i => .num i | none => .null),
        ("priority", .str (if task.priority ≠ "" then task.priority else "medium")),
        ("due_date", match task.due_date with | some d => .str d.iso | none => .null)]

/-- The English success message of finalization. -/
def taskCreatedContentEn (task : TaskEntity) (pending : Pending)
    (tag_names : List String) (priority_value : String) : String :=
  "✅ Task created successfully!\n\n"
    ++ "📝 Title: " ++ task.title ++ "\n"
    ++ (match pyOptStr task.description with
        | some d => "📄 Description: " ++ d ++ "\n"
        | none => "")
    ++ (match (match pyOptStr pending.category_name with
               | some cn => some cn
               | none => pyOptStr pending.new_category_name) with
        | some cn => "📁 Category: " ++ cn ++ "\n"
        | none => "")
    ++ "⚡ Priority: " ++ priorityLabelEn priority_value ++ "\n"
    ++ (match task.due_date with
        | some d => "📅 Due: " ++ d.ymd ++ "\n"
        | none => "")
    ++ (match pyOptStr pending.recurrence_pattern with
        | some r => "🔄 Recurrence: " ++ pyTitle r ++ "\n"
        | none => "")
    ++ (if tag_names.isEmpty then ""
        else "🏷️ Tags: " ++ String.intercalate ", " (tag_names.map (fun t => "#" ++ t)) ++ "\n")
    ++ "\n(Task ID: " ++ toString task.id ++ ")"

/-- The Urdu success message of finalization. -/
def taskCreatedContentUr (task : TaskEntity) (pending : Pending)
    (tag_names : List String) (priority_value : String) : String :=
  "✅ ٹاسک کامیابی سے بنایا گیا!\n\n"
    ++ "📝 عنوان: " ++ task.title ++ "\n"
    ++ (match pyOptStr task.description with
        | some d => "📄 تفصیل: " ++ d ++ "\n"
        | none => "")
    ++ (match (match pyOptStr pending.category_name with
               | some cn => some cn
               | none => pyOptStr pending.new_category_name) with
        | some cn => "📁 کیٹیگری: " ++ cn ++ "\n"
        | none => "")
    ++ "⚡ ترجیح: " ++ priorityLabelUr priority_value ++ "\n"
    ++ (match task.due_date with
        | some d => "📅 آخری تاریخ: " ++ d.ymd ++ "\n"
        | none => "")
    ++ (match pyOptStr pending.recurrence_pattern with
        | some r => "🔄 دہرائی: " ++ recurLabelUr r ++ "\n"
        | none => "")
    ++ (if tag_names.isEmpty then ""
        else "🏷️ ٹیگز: " ++ String.intercalate ", " (tag_names.map (fun t => "#" ++ t)) ++ "\n")
    ++ "\n(Task ID: " ++ toString task.id ++ ")"

/-- The error reply of finalization: state cleared, localized message with the
exception text appended. -/
def finalizeErrorReply (lang : String) (w : World) (e : PyErr) :
    Reply × Conv × World :=
  ({ rtype := "error",
     content := (if lang = "ur" then "ٹاسک بنانے میں خرابی: " else "Error creating task: ")
       ++ e.msg }, Conv.cleared, w)

/-- The `TaskCreate` payload assembled by finalization from the pending data:
priority lowered through the keyword dictionary with default medium, the due
date re-parsed from its stored ISO string, and the recurrence keyword lowered
to the enum when known. -/
def pendingTaskData (env : Env) (pending : Pending) (category_id : Option Nat) :
    TaskCreate :=
  { title := pending.title.getD "",
    description := pyOptStr pending.description,
    is_completed := false,
    category_id := category_id,
    priority := priorityToEnum (pending.priority.getD "medium"),
    due_date := (match pyOptStr pending.due_date with
                 | some s => env.fromIso s
                 | none => none),
    recurrence_pattern := (match pyOptStr pending.recurrence_pattern with
                           | some r => recurrenceToEnum r
                           | none => none),
    recurrence_interval := 1 }

/-- `_finalize_guided_task`: resolve the category, lower the collected strings
to enums, create the task, best-effort attach the tags, clear the state and
build the success reply; any exception clears the state and yields an error
reply. -/
def ChatAgent.finalize_guided_task (env : Env) (lang : String) (c : Conv)
    (w : World) : Reply × Conv × World :=
  let pending := c.pending
  match finalizeCategoryId env pending with
  | .error e => finalizeErrorReply lang w e
  | .ok category_id =>
      match TaskService.createTask env w (pendingTaskData env pending category_id) with
      | (.error e, w1) => finalizeErrorReply lang w1 e
      | (.ok task, w1) =>
          let tag_names := pending.tags.getD []
          let w2 := if tag_names.isEmpty then w1
                    else finalizeTagLoop env task.id tag_names w1
          let priority_value := if task.priority ≠ "" then task.priority else "medium"
          ({ rtype := "task_created",
             content := if lang = "ur" then
                 taskCreatedContentUr task pending tag_names priority_value
               else taskCreatedContentEn task pending tag_names priority_value,
             task := some (taskJson task) }, Conv.cleared, w2)

/-! ## The guided flow step handler (`_handle_guided_flow`) -/

/-- The re-prompt for an empty title. -/
def emptyTitleReply (lang : String) : Reply :=
  { rtype := "guided_step",
    content := if lang = "ur" then
        "براہ کرم ٹاسک کا عنوان درج کریں (یہ ضروری ہے):"
      else "Please enter the task title (this is required):" }

/-- The description prompt shown after a title is recorded. -/
def descriptionPrompt (lang title : String) : Reply :=
  { rtype := "guided_step", step := some "description",
    content := if lang = "ur" then
        "✓ عنوان: " ++ title ++ "\n\nاب، تفصیل درج کریں (اختیاری):\n(یا 'skip' کہیں)"
      else "✓ Title: " ++ title ++ "\n\nNow, enter a description (optional):\n(or say 'skip')" }

/-- The generic reset reply of the unknown-state fallback branch. -/
def unknownStateReply (lang : String) : Reply :=
  { rtype := "message",
    content := if lang = "ur" then
        "کچھ غلط ہوگیا۔ براہ کرم دوبارہ کوشش کریں۔"
      else "Something went wrong. Please try again." }

/-- The AWAITING_TITLE step: an empty title re-prompts without advancing. -/
def stepTitle (lang : String) (c : Conv) (w : World) (message : String) :
    Reply × Conv × World :=
  let title := message.pyStrip
  if title = "" then (emptyTitleReply lang, c, w)
  else
    let c1 := (c.updPending (fun p => { p with title := some title })).setState
      ConversationState.AWAITING_DESCRIPTION
    (descriptionPrompt lang title, c1, w)

/-- The AWAITING_DESCRIPTION step: a generation keyword asks the oracle for a
description, skip records nothing, any other text is recorded verbatim; the
category menu is fetched and the available list stored into the pending data. -/
def stepDescription (env : Env) (lang : String) (c : Conv) (w : World)
    (message : String) : Reply × Conv × World :=
  let parsed := ChatAgent.parse_user_response env c.pending message "description"
  let msg_lower := message.pyLower.pyStrip
  let should_generate := generateKeywords.any (fun kw => pyIn kw msg_lower)
  let c1 :=
    if should_generate then
      let title := c.pending.title.getD ""
      let generated := ChatAgent.generate_description env lang title
      c.updPending (fun p => { p with description := some generated })
    else
      match parsed with
      | .skip => c
      | .text v => c.updPending (fun p => { p with description := some v })
      | _ => c
  let c2 := c1.setState ConversationState.AWAITING_CATEGORY
  let opts := ChatAgent.format_category_options env lang c2.pending
  let c3 := { c2 with pending := opts.2 }
  let pending := c3.pending
  let summary :=
    if lang = "ur" then
      "✓ عنوان: " ++ pending.title.getD ""
        ++ (match pyOptStr pending.description with
            | some d => "\n✓ تفصیل: " ++ d
            | none => "")
    else
      "✓ Title: " ++ pending.title.getD ""
        ++ (match pyOptStr pending.description with
            | some d => "\n✓ Description: " ++ d
            | none => "")
  ({ rtype := "guided_step", step := some "category",
     content := summary ++ "\n\n📁 " ++ opts.1 }, c3, w)

/-- The AWAITING_CATEGORY step. -/
def stepCategory (env : Env) (lang : String) (c : Conv) (w : World)
    (message : String) : Reply × Conv × World :=
  let parsed := ChatAgent.parse_user_response env c.pending message "category"
  let c1 :=
    match parsed with
    | .skip => c
    | .newCategory nc =>
        if nc ≠ "" then c.updPending (fun p => { p with new_category_name := some nc })
        else c
    | .cvalue cid cname =>
        if cid ≠ 0 then
          c.updPending (fun p => { p with category_id := some cid, category_name := some cname })
        else c
    | _ => c
  let c2 := c1.setState ConversationState.AWAITING_PRIORITY
  ({ rtype := "guided_step", step := some "priority",
     content := (if lang = "ur" then "✓ کیٹیگری منتخب ہوگئی\n\n"
                 else "✓ Category selected\n\n")
       ++ ChatAgent.format_priority_options lang }, c2, w)

/-- The AWAITING_PRIORITY step: skip defaults to medium. -/
def stepPriority (env : Env) (lang : String) (c : Conv) (w : World)
    (message : String) : Reply × Conv × World :=
  let parsed := ChatAgent.parse_user_response env c.pending message "priority"
  let priority := match parsed with
    | .skip => "medium"
    | .pvalue v => v
    | _ => "medium"
  let c1 := (c.updPending (fun p => { p with priority := some priority })).setState
    ConversationState.AWAITING_DUE_DATE
  ({ rtype := "guided_step", step := some "due_date",
     content := if lang = "ur" then
         "✓ ترجیح: " ++ priorityLabelUr priority
           ++ "\n\n📅 آخری تاریخ درج کریں:\n- 'tomorrow' یا 'کل'\n- 'next week' یا 'اگلا ہفتہ'\n- یا تاریخ (YYYY-MM-DD)\n- یا 'skip' کہیں"
       else
         "✓ Priority: " ++ priorityLabelEn priority
           ++ "\n\n📅 Enter due date:\n- 'tomorrow'\n- 'next week'\n- or date (YYYY-MM-DD)\n- or say 'skip'" },
   c1, w)

/-- The AWAITING_DUE_DATE step: a parsed date is stored as its ISO string; a
skip or a parse error records nothing, and the step always advances. -/
def stepDueDate (env : Env) (lang : String) (c : Conv) (w : World)
    (message : String) : Reply × Conv × World :=
  let parsed := ChatAgent.parse_user_response env c.pending message "due_date"
  let c1 := match parsed with
    | .dvalue d => c.updPending (fun p => { p with due_date := some d.iso })
    | _ => c
  let c2 := c1.setState ConversationState.AWAITING_RECURRENCE
  ({ rtype := "guided_step", step := some "recurrence",
     content := (if lang = "ur" then "✓ تاریخ محفوظ ہوگئی\n\n🔄 "
                 else "✓ Due date saved\n\n🔄 ")
       ++ ChatAgent.format_recurrence_options lang }, c2, w)

/-- The AWAITING_RECURRENCE step. -/
def stepRecurrence (env : Env) (lang : String) (c : Conv) (w : World)
    (message : String) : Reply × Conv × World :=
  let parsed := ChatAgent.parse_user_response env c.pending message "recurrence"
  let c1 := match parsed with
    | .rvalue (some v) => c.updPending (fun p => { p with recurrence_pattern := some v })
    | _ => c
  let c2 := c1.setState ConversationState.AWAITING_TAGS
  ({ rtype := "guided_step", step := some "tags",
     content := if lang = "ur" then
         "✓ دہرائی محفوظ ہوگئی\n\n🏷️ ٹیگز درج کریں:\n- ہیش ٹیگ استعمال کریں: #urgent #work\n- یا الفاظ: urgent, work, important\n- یا 'skip' کہیں"
       else
         "✓ Recurrence saved\n\n🏷️ Enter tags:\n- Use hashtags: #urgent #work\n- or words: urgent, work, important\n- or say 'skip'" },
   c2, w)

/-- The AWAITING_TAGS step: record any non-empty tag list, then finalize. -/
def stepTags (env : Env) (lang : String) (c : Conv) (w : World)
    (message : String) : Reply × Conv × World :=
  let parsed := ChatAgent.parse_user_response env c.pending message "tags"
  let c1 := match parsed with
    | .tagsValue ts =>
        if !ts.isEmpty then c.updPending (fun p => { p with tags := some ts })
        else c
    | _ => c
  ChatAgent.finalize_guided_task env lang c1 w

/-- `_handle_guided_flow`: one step of the wizard, dispatching on the current
state string to the per-step handlers above; an unhandled state clears
everything and returns a generic message. -/
def ChatAgent.handle_guided_flow (env : Env) (lang : String) (c : Conv)
    (w : World) (message : String) : Reply × Conv × World :=
  let current_state := ChatAgent.get_state c
  if current_state = ConversationState.AWAITING_TITLE then
    stepTitle lang c w message
  else if current_state = ConversationState.AWAITING_DESCRIPTION then
    stepDescription env lang c w message
  else if current_state = ConversationState.AWAITING_CATEGORY then
    stepCategory env lang c w message
  else if current_state = ConversationState.AWAITING_PRIORITY then
    stepPriority env lang c w message
  else if current_state = ConversationState.AWAITING_DUE_DATE then
    stepDueDate env lang c w message
  else if current_state = ConversationState.AWAITING_RECURRENCE then
    stepRecurrence env lang c w message
  else if current_state = ConversationState.AWAITING_TAGS then
    stepTags env lang c w message
  else
    (unknownStateReply lang, Conv.cleared, w)

/-! ## JSON extraction and response cleaning -/

/-- `_extract_json`: take the span from the first opening brace to the last
closing brace and try to parse it; any parse failure yields `None`. -/
def ChatAgent.extract_json (text : String) : Option Json :=
  let start := pyFind text openBrace
  let stop := pyRFind text closeBrace
  if start ≠ -1 && stop ≠ -1 then
    jsonLoads (pySlice text start.toNat (stop.toNat + 1))
  else none

/-- Remove every flat brace-delimited fragment (an opening brace, a run free of
braces, a closing brace), scanning left to right as `re.sub` does. -/
def removeBraceSpansGo : Nat → List Char → List Char
  | 0, cs => cs
  | _, [] => []
  | fuel + 1, c :: rest =>
      if c = openBrace then
        let after := rest.dropWhile (fun d => d ≠ openBrace && d ≠ closeBrace)
        match after with
        | d :: rest2 =>
            if d = closeBrace then removeBraceSpansGo fuel rest2
            else c :: removeBraceSpansGo fuel rest
        | [] => c :: removeBraceSpansGo fuel rest
      else c :: removeBraceSpansGo fuel rest

/-- Remove every double-brace fragment (two opening braces, a brace-free run,
two closing braces). -/
def removeDoubleBraceGo : Nat → List Char → List Char
  | 0, cs => cs
  | _, [] => []
  | _ + 1, [c] => [c]
  | fuel + 1, c1 :: c2 :: rest =>
      if c1 = openBrace && c2 = openBrace then
        let after := rest.dropWhile (fun d => d ≠ openBrace && d ≠ closeBrace)
        match after with
        | d1 :: d2 :: rest2 =>
            if d1 = closeBrace && d2 = closeBrace then removeDoubleBraceGo fuel rest2
            else c1 :: removeDoubleBraceGo fuel (c2 :: rest)
        | _ => c1 :: removeDoubleBraceGo fuel (c2 :: rest)
      else c1 :: removeDoubleBraceGo fuel (c2 :: rest)

/-- Collapse a newline, inner whitespace and a final newline into a blank line,
matching the greedy left-to-right semantics of the whitespace regex. -/
def collapseBlankGo : Nat → List Char → List Char
  | 0, cs => cs
  | _, [] => []
  | fuel + 1, c :: rest =>
      if c = '\n' then
        let run := rest.takeWhile Char.isWhitespace
        if run.contains '\n' then
          let k := run.length - 1 - run.reverse.findIdx (· = '\n')
          '\n' :: '\n' ::
            collapseBlankGo fuel (run.drop (k + 1) ++ rest.drop run.length)
        else c :: collapseBlankGo fuel rest
      else c :: collapseBlankGo fuel rest

/-- `_clean_json_from_response`: strip brace fragments and collapse blank
runs; an emptied text is replaced by a localized readiness message. -/
def ChatAgent.clean_json_from_response (lang text : String) : String :=
  let c1 := removeBraceSpansGo text.data.length text.data
  let c2 := removeDoubleBraceGo c1.length c1
  let c3 := collapseBlankGo c2.length c2
  let cleaned := (String.mk c3).pyStrip
  if cleaned = "" then
    if lang = "ur" then
      "میں آپ کی مدد کرنے کے لیے تیار ہوں۔ براہ کرم بتائیں آپ کیا کرنا چاہتے ہیں؟"
    else "I'm ready to help you. What would you like to do?"
  else cleaned

/-- `_call_openrouter`: a non-2xx status is re-raised as a generic exception
carrying the status code; any other failure (timeout included) propagates. -/
def ChatAgent.call_openrouter (env : Env) (lang message : String) :
    Except PyErr String :=
  let enhanced := if lang = "ur" then "[RESPOND IN URDU ONLY] " ++ message else message
  match env.completion enhanced with
  | .ok t => .ok t
  | .httpError status _ => .error (.exc ("OpenRouter API error: " ++ toString status))
  | .raise e => .error e

/-! ## Action execution (`_execute_action`) -/

/-- Render a decoded JSON value inside an f-string as Python would
(`None`/`True`/`False`, numbers, raw strings; containers abbreviated — the
agent never interpolates a container). -/
def Json.pyStr : Json → String
  | .null => "None"
  | .bool true => "True"
  | .bool false => "False"
  | .num n => toString n
  | .str s => s
  | .arr _ => "[...]"
  | .obj _ => Char.toString openBrace ++ "..." ++ Char.toString closeBrace

/-- Read a field expected to be a string, with a default for a missing key; a
present non-string raises (`.strip()` on it fails). -/
def getStrField (a : List (String × Json)) (k dflt : String) : Except PyErr String :=
  match Json.objGet a k with
  | none => .ok dflt
  | some (.str s) => .ok s
  | some _ => .error (.exc "AttributeError")

/-- The error reply built by the `except` clauses of `_execute_action`:
`ValueError` messages verbatim, other exceptions prefixed. -/
def execErrReply (e : PyErr) : Reply :=
  match e with
  | .valueError m => { rtype := "error", content := m }
  | .exc m => { rtype := "error", content := "Error: " ++ m }

/-- The minimal task payload used by the list and search replies. -/
def taskListItemJson (t : TaskEntity) : Json :=
  .obj [("id", .num t.id), ("title", .str t.title),
        ("description", match t.description with | some d => .str d | none => .null),
        ("is_completed", .bool t.is_completed)]

/-- One rendered line of a task listing. -/
def taskListLine (i : Nat) (t : TaskEntity) : String :=
  toString (i + 1) ++ ". [" ++ (if t.is_completed then "✓" else " ") ++ "] "
    ++ t.title ++ " (ID: " ++ toString t.id ++ ")"

/-- The rendered joined listing of tasks. -/
def taskListText (tasks : List TaskEntity) : String :=
  String.intercalate "\n" (tasks.enum.map (fun it => taskListLine it.1 it.2))

/-- The per-element validation of the direct create-task tag loop: a truthy
non-string raises when `.strip()` is applied; a non-blank string is created
and attached with no per-tag error isolation (the first failure aborts). -/
def directTagLoop (env : Env) (taskId : Nat) : List Json → World →
    Except PyErr Unit × World
  | [], w => (.ok (), w)
  | v :: vs, w =>
      match v with
      | .str s =>
          if s ≠ "" && s.pyStrip ≠ "" then
            match TagService.createTag env w s.pyStrip with
            | (.ok tagId, w2) =>
                match TagService.addTagToTask env w2 taskId tagId with
                | (.ok _, w3) => directTagLoop env taskId vs w3
                | (.error e, w3) => (.error e, w3)
            | (.error e, w2) => (.error e, w2)
          else directTagLoop env taskId vs w
      | _ =>
          if v.truthy then (.error (.exc "AttributeError"), w)
          else directTagLoop env taskId vs w

/-- The guided-start reply when an inline title was provided. -/
def startWithTitleReply (lang t : String) : Reply :=
  { rtype := "guided_step", step := some "description",
    content := if lang = "ur" then
        "🚀 ٹاسک بنانا شروع!\n\n✓ عنوان: " ++ t
          ++ "\n\nاب، تفصیل درج کریں (اختیاری):\n(یا 'skip' کہیں)"
      else
        "🚀 Starting task creation!\n\n✓ Title: " ++ t
          ++ "\n\nNow, enter a description (optional):\n(or say 'skip')" }

/-- The guided-start reply when no inline title was provided. -/
def startNoTitleReply (lang : String) : Reply :=
  { rtype := "guided_step", step := some "title",
    content := if lang = "ur" then
        "🚀 نیا ٹاسک بنانا شروع!\n\nبراہ کرم ٹاسک کا عنوان درج کریں:\n(مثال: \"دودھ خریدنا\", \"میٹنگ کی تیاری\")"
      else
        "🚀 Starting new task creation!\n\nPlease enter the task title:\n(Example: \"Buy groceries\", \"Prepare for meeting\")" }

/-- The direct create-task response line. -/
def directCreateContent (task : TaskEntity) (categoryName : Option String)
    (priority : String) (due : Option DT) (tagStrs : List String)
    (tagsTruthy : Bool) : String :=
  "✓ Created task: " ++ task.title
    ++ (match categoryName with
        | some cn => " (Category: " ++ pyTitle cn ++ ")"
        | none => "")
    ++ (if priority ≠ "medium" then
          " [Priority: "
            ++ (if priority = "critical" then "🔴 Critical"
                else if priority = "high" then "🟠 High"
                else if priority = "low" then "🟢 Low"
                else pyTitle priority) ++ "]"
        else "")
    ++ (match due with
        | some d => " 📅 Due: " ++ d.rel
        | none => "")
    ++ (if tagsTruthy then
          " 🏷️ Tags: " ++ String.intercalate ", " (tagStrs.map (fun t => "#" ++ t))
        else "")

/-- The payload of the direct create-task reply. -/
def taskJsonDirect (task : TaskEntity) : Json :=
  .obj [("id", .num task.id), ("title", .str task.title),
        ("description", match task.description with | some d => .str d | none => .null),
        ("is_completed", .bool task.is_completed),
        ("category_id", match task.category_id with | some i => .num i | none => .null),
        ("priority", .str task.priority),
        ("due_date", match task.due_date with | some d => .str d.iso | none => .null)]

/-- The `create_task` action branch: validate priority and recurrence, parse
the due date, auto-create the category, insert the task, then attach tags with
no per-tag isolation, so a tag failure aborts after the task was inserted. -/
def executeCreateTask (env : Env) (w : World)
    (a : List (String × Json)) : Except PyErr (Reply × World) × World :=
  let titleJ := (Json.objGet a "title").getD (.str "")
  let descJ := (Json.objGet a "description").getD (.str "")
  let categoryJ := Json.objGet a "category"
  let priorityJ := (Json.objGet a "priority").getD (.str "medium")
  let dueJ := Json.objGet a "due_date"
  let recurJ := Json.objGet a "recurrence_pattern"
  let priority : String :=
    match priorityJ with
    | .str s => if s ∈ (["critical", "high", "medium", "low"] : List String) then s
                else "medium"
    | _ => "medium"
  let recurrence : Except PyErr (Option String) :=
    match recurJ with
    | none => .ok none
    | some v =>
        if v.truthy then
          match v with
          | .str s => if s ∈ (["daily", "weekly", "monthly"] : List String) then .ok (some s)
                      else .ok none
          | _ => .ok none
        else
          match v with
          | .null => .ok none
          | _ => .error (.valueError "Input should be daily, weekly, monthly or custom")
  let dueParsed : Except PyErr (Option DT) :=
    match dueJ with
    | none => .ok none
    | some v =>
        if v.truthy then
          match v with
          | .str s =>
              .ok (match env.fromIso (pyReplace s "Z" "+00:00") with
                   | some d => some d
                   | none => env.parseNaturalDate s)
          | _ => .error (.exc "AttributeError")
        else .ok none
  match dueParsed with
  | .error e => (.error e, w)
  | .ok due_date =>
    let categoryRes : Except PyErr (Option Nat × Option String) :=
      match categoryJ with
      | none => .ok (none, none)
      | some v =>
          if v.truthy then
            match v with
            | .str s =>
                match env.createOrGetCategory (pyTitle s.pyStrip) with
                | .ok cat => .ok (some cat.id, some s)
                | .error e => .error e
            | _ => .error (.exc "AttributeError")
          else .ok (none, none)
    match categoryRes with
    | .error e => (.error e, w)
    | .ok (category_id, category_name) =>
      let titleS : Except PyErr String :=
        match titleJ with
        | .str s => .ok s
        | _ => .error (.valueError "Input should be a valid string")
      match titleS with
      | .error e => (.error e, w)
      | .ok title =>
        let descS : Except PyErr (Option String) :=
          match descJ with
          | .str s => .ok (if s = "" then none else some s)
          | v => if v.truthy then .error (.valueError "Input should be a valid string")
                 else .ok none
        match descS with
        | .error e => (.error e, w)
        | .ok description =>
          match recurrence with
          | .error e => (.error e, w)
          | .ok recur =>
            let task_data : TaskCreate :=
              { title := title, description := description, is_completed := false,
                category_id := category_id, priority := priorityToEnum priority,
                due_date := due_date,
                recurrence_pattern := recur.map (fun s =>
                  (recurrenceToEnum s).getD .custom),
                recurrence_interval := 1 }
            match TaskService.createTask env w task_data with
            | (.error e, w1) => (.error e, w1)
            | (.ok task, w1) =>
              let tagsJ := (Json.objGet a "tags").getD (.arr [])
              if tagsJ.truthy then
                match tagsJ with
                | .arr xs =>
                    match directTagLoop env task.id xs w1 with
                    | (.error e, w2) => (.error e, w2)
                    | (.ok _, w2) =>
                        match xs.mapM (fun v => match v with
                          | Json.str s => some s
                          | _ => none) with
                        | none => (.error (.exc "TypeError"), w2)
                        | some tagStrs =>
                            (.ok ({ rtype := "task_created",
                                    content := directCreateContent task category_name
                                      priority due_date tagStrs true,
                                    task := some (taskJsonDirect task) }, w2), w2)
                | _ => (.error (.exc "TypeError"), w1)
              else
                (.ok ({ rtype := "task_created",
                        content := directCreateContent task category_name priority
                          due_date [] false,
                        task := some (taskJsonDirect task) }, w1), w1)

/-- Python equality of the extracted `action` value with an action-kind
string: true exactly when the value is that string. -/
def actionIs (action : Option Json) (s : String) : Bool :=
  match action with
  | some (.str t) => t = s
  | _ => false

/-- The action branches other than the guided start: none of them reads or
mutates the conversation row, so they are factored into a helper returning only
the reply and the effect log. -/
def ChatAgent.executeOtherAction (env : Env) (w : World)
    (a : List (String × Json)) : Reply × World :=
  let action := Json.objGet a "action"
  if actionIs action "create_task" then
    match executeCreateTask env w a with
    | (.ok rw, _) => rw
    | (.error e, w1) => (execErrReply e, w1)
  else if actionIs action "list_tasks" then
    match env.getTasks with
    | .error e => (execErrReply e, w)
    | .ok all_tasks =>
        match (Json.objGet a "filter").getD (.str "all") with
        | .str fs =>
            let task_filter := fs.pyLower
            let tasks := if task_filter = "completed" then
                all_tasks.filter (fun t => t.is_completed)
              else if task_filter = "incomplete" then
                all_tasks.filter (fun t => !t.is_completed)
              else all_tasks
            let filter_label := if task_filter = "completed" then "completed"
              else if task_filter = "incomplete" then "incomplete/pending"
              else "all"
            if tasks.isEmpty then
              ({ rtype := "message",
                 content := "You have no " ++ filter_label ++ " tasks." }, w)
            else
              ({ rtype := "task_list",
                 content := "Your " ++ filter_label ++ " tasks:\n" ++ taskListText tasks,
                 tasks := some (.arr (tasks.map taskListItemJson)) }, w)
        | _ => (execErrReply (.exc "AttributeError"), w)
  else if actionIs action "complete_task" then
    let task_id := Json.objGet a "task_id"
    if !(task_id.getD .null).truthy then
      ({ rtype := "error", content := "Task ID is required." }, w)
    else
      match env.updateTask (task_id.getD .null) { is_completed := some true } with
      | .error e => (execErrReply e, w)
      | .ok none =>
          ({ rtype := "error",
             content := "Task " ++ (task_id.getD .null).pyStr ++ " not found." }, w)
      | .ok (some task) =>
          ({ rtype := "task_completed",
             content := "✓ Completed task: " ++ task.title,
             task := some (.obj [("id", .num task.id), ("title", .str task.title),
               ("is_completed", .bool task.is_completed)]) }, w)
  else if actionIs action "uncomplete_task" then
    let task_id := Json.objGet a "task_id"
    if !(task_id.getD .null).truthy then
      ({ rtype := "error", content := "Task ID is required." }, w)
    else
      match env.updateTask (task_id.getD .null) { is_completed := some false } with
      | .error e => (execErrReply e, w)
      | .ok none =>
          ({ rtype := "error",
             content := "Task " ++ (task_id.getD .null).pyStr ++ " not found." }, w)
      | .ok (some task) =>
          ({ rtype := "task_uncompleted",
             content := "✓ Marked task as incomplete: " ++ task.title,
             task := some (.obj [("id", .num task.id), ("title", .str task.title),
               ("is_completed", .bool task.is_completed)]) }, w)
  else if actionIs action "delete_task" then
    let task_id := Json.objGet a "task_id"
    if !(task_id.getD .null).truthy then
      ({ rtype := "error", content := "Task ID is required." }, w)
    else
      match env.deleteTask (task_id.getD .null) with
      | .error e => (execErrReply e, w)
      | .ok false =>
          ({ rtype := "error",
             content := "Task " ++ (task_id.getD .null).pyStr ++ " not found." }, w)
      | .ok true =>
          ({ rtype := "task_deleted",
             content := "✓ Deleted task ID " ++ (task_id.getD .null).pyStr }, w)
  else if actionIs action "update_task" then
    let task_id := Json.objGet a "task_id"
    if !(task_id.getD .null).truthy then
      ({ rtype := "error", content := "Task ID is required." }, w)
    else
      let fieldOpt : Option Json → Except PyErr (Option String) := fun j =>
        match j with
        | none => .ok none
        | some .null => .ok none
        | some (.str s) => .ok (some s)
        | some _ => .error (.valueError "Input should be a valid string")
      match fieldOpt (Json.objGet a "title") with
      | .error e => (execErrReply e, w)
      | .ok title =>
        match fieldOpt (Json.objGet a "description") with
        | .error e => (execErrReply e, w)
        | .ok description =>
          match env.updateTask (task_id.getD .null)
              { title := title, description := description } with
          | .error e => (execErrReply e, w)
          | .ok none =>
              ({ rtype := "error",
                 content := "Task " ++ (task_id.getD .null).pyStr ++ " not found." }, w)
          | .ok (some task) =>
              ({ rtype := "task_updated",
                 content := "✓ Updated task: " ++ task.title,
                 task := some (.obj [("id", .num task.id), ("title", .str task.title),
                   ("description", match task.description with
                    | some d => .str d
                    | none => .null)]) }, w)
  else if actionIs action "search_tasks" then
    match getStrField a "query" "" with
    | .error e => (execErrReply e, w)
    | .ok rawQuery =>
      let query := rawQuery.pyStrip
      if query = "" then
        ({ rtype := "error", content := "Search query is required." }, w)
      else
        match env.searchTasks query with
        | .error e => (execErrReply e, w)
        | .ok tasks =>
            if tasks.isEmpty then
              ({ rtype := "message",
                 content := "No tasks found matching '" ++ query ++ "'." }, w)
            else
              ({ rtype := "search_results",
                 content := "Found " ++ toString tasks.length ++ " task(s) matching '"
                   ++ query ++ "':\n" ++ taskListText tasks,
                 tasks := some (.arr (tasks.map taskListItemJson)) }, w)
  else if actionIs action "add_subtask" then
    let task_id := Json.objGet a "task_id"
    match getStrField a "subtask_title" "" with
    | .error e => (execErrReply e, w)
    | .ok rawTitle =>
      let subtask_title := rawTitle.pyStrip
      if !(task_id.getD .null).truthy then
        ({ rtype := "error", content := "Task ID is required." }, w)
      else if subtask_title = "" then
        ({ rtype := "error", content := "Subtask title is required." }, w)
      else
        match env.getTaskById (task_id.getD .null) with
        | .error e => (execErrReply e, w)
        | .ok none =>
            ({ rtype := "error",
               content := "Task " ++ (task_id.getD .null).pyStr ++ " not found." }, w)
        | .ok (some task) =>
            match env.createSubtask (task_id.getD .null) subtask_title with
            | .error e => (execErrReply e, w)
            | .ok subtask =>
                ({ rtype := "subtask_added",
                   content := "✓ Added subtask '" ++ subtask.title ++ "' to task: "
                     ++ task.title,
                   subtask := some (.obj [("id", .num subtask.id),
                     ("title", .str subtask.title),
                     ("parent_task_id", .num subtask.parent_task_id),
                     ("is_completed", .bool subtask.is_completed)]) }, w)
  else if actionIs action "complete_subtask" then
    let subtask_id := Json.objGet a "subtask_id"
    if !(subtask_id.getD .null).truthy then
      ({ rtype := "error", content := "Subtask ID is required." }, w)
    else
      match env.getSubtaskById (subtask_id.getD .null) with
      | .error e => (execErrReply e, w)
      | .ok none =>
          ({ rtype := "error",
             content := "Subtask " ++ (subtask_id.getD .null).pyStr ++ " not found." }, w)
      | .ok (some subtask) =>
          match env.getTaskById (.num subtask.parent_task_id) with
          | .error e => (execErrReply e, w)
          | .ok none =>
              ({ rtype := "error",
                 content := "Parent task not found or access denied." }, w)
          | .ok (some _) =>
              match env.updateSubtaskComplete (subtask_id.getD .null) with
              | .error e => (execErrReply e, w)
              | .ok none =>
                  ({ rtype := "error",
                     content := "Subtask " ++ (subtask_id.getD .null).pyStr
                       ++ " not found." }, w)
              | .ok (some updated) =>
                  ({ rtype := "subtask_completed",
                     content := "✓ Completed subtask: " ++ updated.title,
                     subtask := some (.obj [("id", .num updated.id),
                       ("title", .str updated.title),
                       ("is_completed", .bool updated.is_completed)]) }, w)
  else if actionIs action "delete_subtask" then
    let subtask_id := Json.objGet a "subtask_id"
    if !(subtask_id.getD .null).truthy then
      ({ rtype := "error", content := "Subtask ID is required." }, w)
    else
      match env.getSubtaskById (subtask_id.getD .null) with
      | .error e => (execErrReply e, w)
      | .ok none =>
          ({ rtype := "error",
             content := "Subtask " ++ (subtask_id.getD .null).pyStr ++ " not found." }, w)
      | .ok (some subtask) =>
          match env.getTaskById (.num subtask.parent_task_id) with
          | .error e => (execErrReply e, w)
          | .ok none =>
              ({ rtype := "error",
                 content := "Parent task not found or access denied." }, w)
          | .ok (some _) =>
              match env.deleteSubtask (subtask_id.getD .null) with
              | .error e => (execErrReply e, w)
              | .ok false =>
                  ({ rtype := "error",
                     content := "Subtask " ++ (subtask_id.getD .null).pyStr
                       ++ " not found." }, w)
              | .ok true =>
                  ({ rtype := "subtask_deleted",
                     content := "✓ Deleted subtask ID "
                       ++ (subtask_id.getD .null).pyStr }, w)
  else
    ({ rtype := "error",
       content := "Unknown action: " ++ (action.getD .null).pyStr }, w)

/-- `_execute_action`: dispatch on the extracted action type; `ValueError`
surfaces its message verbatim, any other exception is reported with an
`Error:` prefix, and the conversation is only mutated by the guided-start
branch. -/
def ChatAgent.execute_action (env : Env) (lang : String) (c : Conv) (w : World)
    (a : List (String × Json)) : Reply × Conv × World :=
  let action := Json.objGet a "action"
  if actionIs action "start_guided_task" then
    match getStrField a "initial_title" "" with
    | .error e => (execErrReply e, c, w)
    | .ok raw =>
        let initial_title := raw.pyStrip
        if initial_title ≠ "" then
          let c1 := (c.updPending (fun p => { p with title := some initial_title })).setState
            ConversationState.AWAITING_DESCRIPTION
          (startWithTitleReply lang initial_title, c1, w)
        else
          (startNoTitleReply lang, c.setState ConversationState.AWAITING_TITLE, w)
  else
    let rw := ChatAgent.executeOtherAction env w a
    (rw.1, c, rw.2)

/-! ## The top-level message processor -/

/-- The cancellation confirmation reply. -/
def cancelReply (lang : String) : Reply :=
  { rtype := "message",
    content := if lang = "ur" then
        "ٹاسک بنانا منسوخ کر دیا گیا۔ آپ کی کیا مدد کر سکتا ہوں؟"
      else "Task creation cancelled. How can I help you?" }

/-- The translation heuristic of the action path: any ASCII letter among the
first fifty characters of the content. -/
def looksEnglishShort (s : String) : Bool :=
  (s.data.take 50).any pyAsciiAlpha

/-- The translation heuristic of the chat path: more than twenty ASCII letters
among the first hundred characters. -/
def looksEnglishLong (s : String) : Bool :=
  (s.data.take 100).countP pyAsciiAlpha > 20

/-- `ChatAgent.process_message`: cancellation first, then the guided flow when
one is active, then direct intent detection, and finally the oracle plus JSON
action extraction; the oracle call is made outside every `try` block, so its
exceptions propagate to the caller (the `Except.error` result). -/
def ChatAgent.process_message (env : Env) (lang : String) (c : Conv) (w : World)
    (message : String) : Except PyErr (Reply × Conv × World) :=
  let current_state := ChatAgent.get_state c
  let msg_lower := message.pyLower.pyStrip
  if msg_lower ∈ cancelWords && current_state ≠ ConversationState.IDLE then
    .ok (cancelReply lang, Conv.cleared, w)
  else if current_state ≠ ConversationState.IDLE then
    .ok (ChatAgent.handle_guided_flow env lang c w message)
  else
    match env.detect message with
    | some action => .ok (ChatAgent.execute_action env lang c w action)
    | none =>
        match ChatAgent.call_openrouter env lang message with
        | .error e => .error e
        | .ok response =>
            match ChatAgent.extract_json response with
            | some (.obj kvs) =>
                if (Json.objGet kvs "action").isSome then
                  let res := ChatAgent.execute_action env lang c w kvs
                  if lang = "ur" && looksEnglishShort res.1.content then
                    .ok ({ res.1 with
                           content := ChatAgent.translate_to_urdu env res.1.content },
                         res.2.1, res.2.2)
                  else .ok res
                else
                  let clean0 := ChatAgent.clean_json_from_response lang response
                  let clean := if lang = "ur" && looksEnglishLong clean0 then
                      ChatAgent.translate_to_urdu env clean0
                    else clean0
                  .ok ({ rtype := "message", content := clean }, c, w)
            | _ =>
                let clean0 := ChatAgent.clean_json_from_response lang response
                let clean := if lang = "ur" && looksEnglishLong clean0 then
                    ChatAgent.translate_to_urdu env clean0
                  else clean0
                .ok ({ rtype := "message", content := clean }, c, w)

/-- The response assembled by `ChatService.process_message` for the HTTP
layer: the reply text and the type tag. -/
structure ServiceResp where
  response : String
  rtype : String
deriving Repr, DecidableEq, Inhabited

/-- `ChatService.process_message` around the agent call: every exception the
agent lets escape is caught here and converted to a friendly error reply with
type tag `error`. -/
def ChatService.process_message (env : Env) (lang : String) (c : Conv)
    (w : World) (message : String) : ServiceResp × Conv × World :=
  match ChatAgent.process_message env lang c w message with
  | .ok (r, c1, w1) => ({ response := r.content, rtype := r.rtype }, c1, w1)
  | .error e =>
      let content :=
        if pyIn "OpenRouter API error" e.msg then
          "Sorry, I'm having trouble connecting to the AI service right now. Please try again later."
        else if pyIn "invalid_grant" e.msg || pyIn "invalid_client" e.msg then
          "Sorry, there's an issue with the AI service configuration. Please contact support."
        else if e.msg.length > 200 then
          "Sorry, I encountered an error: " ++ pySlice e.msg 0 200 ++ "..."
        else "Sorry, I encountered an error: " ++ e.msg
      ({ response := content, rtype := "error" }, c, w)

/-! ## Concrete environments for witnesses and counterexamples -/

/-- A deterministic environment in which every collaborator succeeds: two
stored categories, database ids fixed, no natural-language date parses, and
the oracle returns plain text. -/
def testEnv : Env :=
  { detect := fun _ => none,
    completion := fun _ => .ok "Hello!",
    genDescription := fun t => .ok ("About " ++ t),
    translate := fun s => .ok s,
    categoriesResult := .ok [⟨1, "Work", some "💼"⟩, ⟨2, "Home", none⟩],
    createOrGetCategory := fun n => .ok ⟨9, n, some "📁"⟩,
    dbInsertTask := fun _ => .ok 42,
    createTag := fun n => .ok (100 + n.length),
    addTagToTask := fun _ _ => .ok (),
    parseNaturalDate := fun _ => none,
    fromIso := fun _ => none,
    tomorrow := ⟨"2025-01-02T23:59:59", "2025-01-02", "due tomorrow"⟩,
    nextWeek := ⟨"2025-01-08T23:59:59", "2025-01-08", "due in 7 days"⟩,
    getTasks := .ok [],
    searchTasks := fun _ => .ok [],
    getTaskById := fun _ => .ok none,
    updateTask := fun _ _ => .ok none,
    deleteTask := fun _ => .ok false,
    getSubtaskById := fun _ => .ok none,
    createSubtask := fun _ t => .ok ⟨7, t, 1, false⟩,
    updateSubtaskComplete := fun _ => .ok none,
    deleteSubtask := fun _ => .ok false }

/-- `testEnv` with an oracle whose completion call raises a timeout. -/
def raisingEnv : Env := { testEnv with completion := fun _ => .raise (.exc "timeout") }

/-- `testEnv` with a failing tag-creation service. -/
def tagFailEnv : Env :=
  { testEnv with createTag := fun n =>
      if n = "bad" then .error (.exc "duplicate tag") else .ok (100 + n.length) }

/-- The fresh conversation row: state `idle`, no pending data. -/
def conv0 : Conv := {}

/-- The empty effect log. -/
def world0 : World := {}

/-! ## Structural lemmas -/

@[simp] lemma get_state_setState (c : Conv) (s : String) :
    ChatAgent.get_state (c.setState s) = if s = "" then ConversationState.IDLE else s := rfl

@[simp] lemma pending_setState (c : Conv) (s : String) :
    (Conv.setState c s).pending = c.pending := rfl

@[simp] lemma get_state_updPending (c : Conv) (f : Pending → Pending) :
    ChatAgent.get_state (c.updPending f) = ChatAgent.get_state c := rfl

@[simp] lemma pending_updPending (c : Conv) (f : Pending → Pending) :
    (Conv.updPending c f).pending = f c.pending := rfl

@[simp] lemma get_state_cleared :
    ChatAgent.get_state Conv.cleared = ConversationState.IDLE := rfl

@[simp] lemma pending_cleared : Conv.cleared.pending = Pending.empty := rfl

/-- The state strings handled by `_handle_guided_flow`. -/
def guidedStates : List String :=
  [ConversationState.AWAITING_TITLE, ConversationState.AWAITING_DESCRIPTION,
   ConversationState.AWAITING_CATEGORY, ConversationState.AWAITING_PRIORITY,
   ConversationState.AWAITING_DUE_DATE, ConversationState.AWAITING_RECURRENCE,
   ConversationState.AWAITING_TAGS]

/-- The states strictly past title collection. -/
def pastTitleStates : List String :=
  [ConversationState.AWAITING_DESCRIPTION, ConversationState.AWAITING_CATEGORY,
   ConversationState.AWAITING_PRIORITY, ConversationState.AWAITING_DUE_DATE,
   ConversationState.AWAITING_RECURRENCE, ConversationState.AWAITING_TAGS]

/-- The conversation-state invariant: IDLE has no pending data, every state
past title collection has a recorded title, and the stored state string is one
the machine can produce. -/
def convInv (c : Conv) : Prop :=
  (ChatAgent.get_state c = ConversationState.IDLE → c.pending = Pending.empty) ∧
  (ChatAgent.get_state c ∈ pastTitleStates → c.pending.title.isSome = true) ∧
  (ChatAgent.get_state c = ConversationState.IDLE ∨ ChatAgent.get_state c ∈ guidedStates)

lemma finalize_conv (env : Env) (lang : String) (c : Conv) (w : World) :
    (ChatAgent.finalize_guided_task env lang c w).2.1 = Conv.cleared := by
  simp only [ChatAgent.finalize_guided_task]
  cases hfc : finalizeCategoryId env c.pending with
  | error e => simp [finalizeErrorReply]
  | ok cid =>
    cases hct : TaskService.createTask env w (pendingTaskData env c.pending cid) with
    | mk res w1 =>
      cases res with
      | error e => simp [hct, finalizeErrorReply]
      | ok t => simp [hct]

lemma finalize_rtype (env : Env) (lang : String) (c : Conv) (w : World) :
    (ChatAgent.finalize_guided_task env lang c w).1.rtype = "task_created" ∨
      (ChatAgent.finalize_guided_task env lang c w).1.rtype = "error" := by
  simp only [ChatAgent.finalize_guided_task]
  cases hfc : finalizeCategoryId env c.pending with
  | error e => right; simp [finalizeErrorReply]
  | ok cid =>
    cases hct : TaskService.createTask env w (pendingTaskData env c.pending cid) with
    | mk res w1 =>
      cases res with
      | error e => right; simp [hct, finalizeErrorReply]
      | ok t => left; simp [hct]

@[simp] lemma format_category_options_snd (env : Env) (lang : String) (p : Pending) :
    (ChatAgent.format_category_options env lang p).2 =
      { p with available_categories := some (ChatAgent.get_available_categories env) } := by
  simp only [ChatAgent.format_category_options]
  split <;> rfl

lemma convInv_mk (s : String) (p : Pending) (hne : s ≠ "") (hmem : s ∈ guidedStates)
    (ht : s ∈ pastTitleStates → p.title.isSome = true) : convInv ⟨some s, p⟩ := by
  have hgs : ChatAgent.get_state ⟨some s, p⟩ = s := by
    simp [ChatAgent.get_state, hne]
  refine ⟨?_, ?_, ?_⟩
  · intro hid; rw [hgs] at hid; subst hid; exact absurd hmem (by decide)
  · intro hp; rw [hgs] at hp; exact ht hp
  · right; rw [hgs]; exact hmem

lemma convInv_cleared : convInv Conv.cleared :=
  ⟨fun _ => rfl, fun hmem => absurd hmem (by decide), Or.inl rfl⟩

lemma stepTitle_inv (lang : String) (c : Conv) (w : World) (m : String)
    (h : convInv c) : convInv (stepTitle lang c w m).2.1 := by
  by_cases hmt : m.pyStrip = ""
  · simpa [stepTitle, hmt] using h
  · have : (stepTitle lang c w m).2.1 =
        ⟨some ConversationState.AWAITING_DESCRIPTION,
         { c.pending with title := some m.pyStrip }⟩ := by
      simp [stepTitle, hmt, Conv.setState, Conv.updPending]
    rw [this]
    exact convInv_mk _ _ (by decide) (by decide) (fun _ => rfl)

lemma stepDescription_conv (env : Env) (lang : String) (c : Conv) (w : World)
    (m : String) :
    ∃ p', (stepDescription env lang c w m).2.1 =
        ⟨some ConversationState.AWAITING_CATEGORY, p'⟩ ∧ p'.title = c.pending.title := by
  simp only [stepDescription]
  refine ⟨_, rfl, ?_⟩
  split
  · simp
  · split <;> simp

lemma stepCategory_conv (env : Env) (lang : String) (c : Conv) (w : World)
    (m : String) :
    ∃ p', (stepCategory env lang c w m).2.1 =
        ⟨some ConversationState.AWAITING_PRIORITY, p'⟩ ∧ p'.title = c.pending.title := by
  simp only [stepCategory]
  refine ⟨_, rfl, ?_⟩
  split <;> first | (split <;> simp) | simp

lemma stepPriority_conv (env : Env) (lang : String) (c : Conv) (w : World)
    (m : String) :
    ∃ p', (stepPriority env lang c w m).2.1 =
        ⟨some ConversationState.AWAITING_DUE_DATE, p'⟩ ∧ p'.title = c.pending.title := by
  simp only [stepPriority]
  exact ⟨_, rfl, by simp⟩

lemma stepDueDate_conv (env : Env) (lang : String) (c : Conv) (w : World)
    (m : String) :
    ∃ p', (stepDueDate env lang c w m).2.1 =
        ⟨some ConversationState.AWAITING_RECURRENCE, p'⟩ ∧ p'.title = c.pending.title := by
  simp only [stepDueDate]
  refine ⟨_, rfl, ?_⟩
  split <;> simp

lemma stepRecurrence_conv (env : Env) (lang : String) (c : Conv) (w : World)
    (m : String) :
    ∃ p', (stepRecurrence env lang c w m).2.1 =
        ⟨some ConversationState.AWAITING_TAGS, p'⟩ ∧ p'.title = c.pending.title := by
  simp only [stepRecurrence]
  refine ⟨_, rfl, ?_⟩
  split <;> simp

lemma stepTags_conv (env : Env) (lang : String) (c : Conv) (w : World)
    (m : String) : (stepTags env lang c w m).2.1 = Conv.cleared := by
  simp only [stepTags]
  exact finalize_conv _ _ _ _

lemma handle_inv (env : Env) (lang : String) (c : Conv) (w : World) (m : String)
    (h : convInv c) : convInv (ChatAgent.handle_guided_flow env lang c w m).2.1 := by
  have hpast := h.2.1
  simp only [ChatAgent.handle_guided_flow]
  split_ifs with h1 h2 h3 h4 h5 h6 h7
  · exact stepTitle_inv lang c w m h
  · obtain ⟨p', hp', ht'⟩ := stepDescription_conv env lang c w m
    rw [hp']
    exact convInv_mk _ _ (by decide) (by decide)
      (fun _ => by rw [ht']; exact hpast (by rw [h2]; decide))
  · obtain ⟨p', hp', ht'⟩ := stepCategory_conv env lang c w m
    rw [hp']
    exact convInv_mk _ _ (by decide) (by decide)
      (fun _ => by rw [ht']; exact hpast (by rw [h3]; decide))
  · obtain ⟨p', hp', ht'⟩ := stepPriority_conv env lang c w m
    rw [hp']
    exact convInv_mk _ _ (by decide) (by decide)
      (fun _ => by rw [ht']; exact hpast (by rw [h4]; decide))
  · obtain ⟨p', hp', ht'⟩ := stepDueDate_conv env lang c w m
    rw [hp']
    exact convInv_mk _ _ (by decide) (by decide)
      (fun _ => by rw [ht']; exact hpast (by rw [h5]; decide))
  · obtain ⟨p', hp', ht'⟩ := stepRecurrence_conv env lang c w m
    rw [hp']
    exact convInv_mk _ _ (by decide) (by decide)
      (fun _ => by rw [ht']; exact hpast (by rw [h6]; decide))
  · rw [stepTags_conv]; exact convInv_cleared
  · exact convInv_cleared

lemma exec_conv (env : Env) (lang : String) (c : Conv) (w : World)
    (a : List (String × Json)) :
    (ChatAgent.execute_action env lang c w a).2.1 = c ∨
    (ChatAgent.execute_action env lang c w a).2.1 =
      c.setState ConversationState.AWAITING_TITLE ∨
    ∃ t, t ≠ "" ∧ (ChatAgent.execute_action env lang c w a).2.1 =
      ⟨some ConversationState.AWAITING_DESCRIPTION,
       { c.pending with title := some t }⟩ := by
  by_cases hstart : actionIs (Json.objGet a "action") "start_guided_task"
  · cases hg : getStrField a "initial_title" "" with
    | error e => left; simp [ChatAgent.execute_action, hstart, hg]
    | ok raw =>
        by_cases hr : raw.pyStrip = ""
        · right; left; simp [ChatAgent.execute_action, hstart, hg, hr, Conv.setState]
        · right; right
          refine ⟨raw.pyStrip, hr, ?_⟩
          simp [ChatAgent.execute_action, hstart, hg, hr, Conv.setState, Conv.updPending]
  · left; simp [ChatAgent.execute_action, hstart]

lemma exec_inv (env : Env) (lang : String) (c : Conv) (w : World)
    (a : List (String × Json)) (h : convInv c) :
    convInv (ChatAgent.execute_action env lang c w a).2.1 := by
  rcases exec_conv env lang c w a with h1 | h1 | ⟨t, ht, h1⟩ <;> rw [h1]
  · exact h
  · exact convInv_mk _ _ (by decide) (by decide) (fun hmem => absurd hmem (by decide))
  · exact convInv_mk _ _ (by decide) (by decide) (fun _ => rfl)

lemma pm_inv (env : Env) (lang : String) (c : Conv) (w : World) (m : String)
    (r : Reply) (c1 : Conv) (w1 : World) (h : convInv c)
    (hp : ChatAgent.process_message env lang c w m = .ok (r, c1, w1)) :
    convInv c1 := by
  simp only [ChatAgent.process_message] at hp
  split at hp
  · simp only [Except.ok.injEq, Prod.mk.injEq] at hp
    obtain ⟨-, hc, -⟩ := hp
    rw [← hc]; exact convInv_cleared
  · split at hp
    · have hh := handle_inv env lang c w m h
      simp only [Except.ok.injEq] at hp
      rw [hp] at hh; exact hh
    · split at hp
      · rename_i act heq
        have he := exec_inv env lang c w act h
        simp only [Except.ok.injEq] at hp
        rw [hp] at he; exact he
      · split at hp
        · exact absurd hp (by simp)
        · split at hp
          · split at hp
            · rename_i kvs hkvs hact
              split at hp
              · have he := exec_inv env lang c w kvs h
                simp only [Except.ok.injEq, Prod.mk.injEq] at hp
                obtain ⟨-, hc, -⟩ := hp
                rw [← hc]; exact he
              · have he := exec_inv env lang c w kvs h
                simp only [Except.ok.injEq] at hp
                rw [hp] at he; exact he
            · simp only [Except.ok.injEq, Prod.mk.injEq] at hp
              obtain ⟨-, hc, -⟩ := hp
              rw [← hc]; exact h
          · simp only [Except.ok.injEq, Prod.mk.injEq] at hp
            obtain ⟨-, hc, -⟩ := hp
            rw [← hc]; exact h

lemma stepTitle_conv_empty (lang : String) (c : Conv) (w : World) (m : String)
    (hmt : m.pyStrip = "") : (stepTitle lang c w m).2.1 = c := by
  simp [stepTitle, hmt]

lemma stepTitle_conv_filled (lang : String) (c : Conv) (w : World) (m : String)
    (hmt : m.pyStrip ≠ "") :
    (stepTitle lang c w m).2.1 =
      ⟨some ConversationState.AWAITING_DESCRIPTION,
       { c.pending with title := some m.pyStrip }⟩ := by
  simp [stepTitle, hmt, Conv.setState, Conv.updPending]

lemma stepTags_rtype (env : Env) (lang : String) (c : Conv) (w : World)
    (m : String) :
    (stepTags env lang c w m).1.rtype = "task_created" ∨
      (stepTags env lang c w m).1.rtype = "error" := by
  simp only [stepTags]
  exact finalize_rtype _ _ _ _

lemma pm_clear (env : Env) (lang : String) (c : Conv) (w : World) (m : String)
    (r : Reply) (c1 : Conv) (w1 : World) (h : convInv c)
    (hs : ChatAgent.get_state c ≠ ConversationState.IDLE)
    (hp : ChatAgent.process_message env lang c w m = .ok (r, c1, w1))
    (hidle : ChatAgent.get_state c1 = ConversationState.IDLE) :
    c1.pending = Pending.empty ∧
      (m.pyLower.pyStrip ∈ cancelWords ∨
       (ChatAgent.get_state c = ConversationState.AWAITING_TAGS ∧
        (r.rtype = "task_created" ∨ r.rtype = "error"))) := by
  simp only [ChatAgent.process_message] at hp
  split at hp
  · rename_i hcond
    simp only [Bool.and_eq_true, decide_eq_true_eq] at hcond
    simp only [Except.ok.injEq, Prod.mk.injEq] at hp
    obtain ⟨-, hc, -⟩ := hp
    rw [← hc]
    exact ⟨rfl, Or.inl hcond.1⟩
  · rcases h.2.2 with hidle0 | hmem
    · exact absurd hidle0 hs
    · simp only [Except.ok.injEq] at hp
      simp only [guidedStates, List.mem_cons, List.not_mem_nil, or_false] at hmem
      rcases hmem with hst | hst | hst | hst | hst | hst | hst
      · -- AWAITING_TITLE
        have hd : ChatAgent.handle_guided_flow env lang c w m = stepTitle lang c w m := by
          simp [ChatAgent.handle_guided_flow, hst, ConversationState.AWAITING_TITLE]
        rw [hd] at hp
        by_cases hmt : m.pyStrip = ""
        · have hc1 : (stepTitle lang c w m).2.1 = c1 := by rw [hp]
          rw [stepTitle_conv_empty lang c w m hmt] at hc1
          rw [← hc1] at hidle
          exact absurd hidle hs
        · have hc1 : (stepTitle lang c w m).2.1 = c1 := by rw [hp]
          rw [stepTitle_conv_filled lang c w m hmt] at hc1
          rw [← hc1] at hidle
          simp [ChatAgent.get_state, ConversationState.AWAITING_DESCRIPTION,
            ConversationState.IDLE] at hidle
      · -- AWAITING_DESCRIPTION
        have hd : ChatAgent.handle_guided_flow env lang c w m =
            stepDescription env lang c w m := by
          simp [ChatAgent.handle_guided_flow, hst, ConversationState.AWAITING_TITLE,
            ConversationState.AWAITING_DESCRIPTION]
        rw [hd] at hp
        obtain ⟨p', hp', -⟩ := stepDescription_conv env lang c w m
        have hc1 : (stepDescription env lang c w m).2.1 = c1 := by rw [hp]
        rw [hp'] at hc1
        rw [← hc1] at hidle
        simp [ChatAgent.get_state, ConversationState.AWAITING_CATEGORY,
          ConversationState.IDLE] at hidle
      · -- AWAITING_CATEGORY
        have hd : ChatAgent.handle_guided_flow env lang c w m =
            stepCategory env lang c w m := by
          simp [ChatAgent.handle_guided_flow, hst, ConversationState.AWAITING_TITLE,
            ConversationState.AWAITING_DESCRIPTION, ConversationState.AWAITING_CATEGORY]
        rw [hd] at hp
        obtain ⟨p', hp', -⟩ := stepCategory_conv env lang c w m
        have hc1 : (stepCategory env lang c w m).2.1 = c1 := by rw [hp]
        rw [hp'] at hc1
        rw [← hc1] at hidle
        simp [ChatAgent.get_state, ConversationState.AWAITING_PRIORITY,
          ConversationState.IDLE] at hidle
      · -- AWAITING_PRIORITY
        have hd : ChatAgent.handle_guided_flow env lang c w m =
            stepPriority env lang c w m := by
          simp [ChatAgent.handle_guided_flow, hst, ConversationState.AWAITING_TITLE,
            ConversationState.AWAITING_DESCRIPTION, ConversationState.AWAITING_CATEGORY,
            ConversationState.AWAITING_PRIORITY]
        rw [hd] at hp
        obtain ⟨p', hp', -⟩ := stepPriority_conv env lang c w m
        have hc1 : (stepPriority env lang c w m).2.1 = c1 := by rw [hp]
        rw [hp'] at hc1
        rw [← hc1] at hidle
        simp [ChatAgent.get_state, ConversationState.AWAITING_DUE_DATE,
          ConversationState.IDLE] at hidle
      · -- AWAITING_DUE_DATE
        have hd : ChatAgent.handle_guided_flow env lang c w m =
            stepDueDate env lang c w m := by
          simp [ChatAgent.handle_guided_flow, hst, ConversationState.AWAITING_TITLE,
            ConversationState.AWAITING_DESCRIPTION, ConversationState.AWAITING_CATEGORY,
            ConversationState.AWAITING_PRIORITY, ConversationState.AWAITING_DUE_DATE]
        rw [hd] at hp
        obtain ⟨p', hp', -⟩ := stepDueDate_conv env lang c w m
        have hc1 : (stepDueDate env lang c w m).2.1 = c1 := by rw [hp]
        rw [hp'] at hc1
        rw [← hc1] at hidle
        simp [ChatAgent.get_state, ConversationState.AWAITING_RECURRENCE,
          ConversationState.IDLE] at hidle
      · -- AWAITING_RECURRENCE
        have hd : ChatAgent.handle_guided_flow env lang c w m =
            stepRecurrence env lang c w m := by
          simp [ChatAgent.handle_guided_flow, hst, ConversationState.AWAITING_TITLE,
            ConversationState.AWAITING_DESCRIPTION, ConversationState.AWAITING_CATEGORY,
            ConversationState.AWAITING_PRIORITY, ConversationState.AWAITING_DUE_DATE,
            ConversationState.AWAITING_RECURRENCE]
        rw [hd] at hp
        obtain ⟨p', hp', -⟩ := stepRecurrence_conv env lang c w m
        have hc1 : (stepRecurrence env lang c w m).2.1 = c1 := by rw [hp]
        rw [hp'] at hc1
        rw [← hc1] at hidle
        simp [ChatAgent.get_state, ConversationState.AWAITING_TAGS,
          ConversationState.IDLE] at hidle
      · -- AWAITING_TAGS
        have hd : ChatAgent.handle_guided_flow env lang c w m =
            stepTags env lang c w m := by
          simp [ChatAgent.handle_guided_flow, hst, ConversationState.AWAITING_TITLE,
            ConversationState.AWAITING_DESCRIPTION, ConversationState.AWAITING_CATEGORY,
            ConversationState.AWAITING_PRIORITY, ConversationState.AWAITING_DUE_DATE,
            ConversationState.AWAITING_RECURRENCE, ConversationState.AWAITING_TAGS]
        rw [hd] at hp
        have hc1 : (stepTags env lang c w m).2.1 = c1 := by rw [hp]
        have hr : (stepTags env lang c w m).1 = r := by rw [hp]
        rw [stepTags_conv] at hc1
        refine ⟨by rw [← hc1]; rfl, Or.inr ⟨hst, ?_⟩⟩
        rw [← hr]
        exact stepTags_rtype env lang c w m

/-- Reachability of a conversation row: the freshly created row, closed under
one processed message in any environment, language and world. -/
inductive Reachable : Conv → Prop where
  | init : Reachable conv0
  | step (env : Env) (lang : String) (c : Conv) (w : World) (m : String)
      (r : Reply) (c1 : Conv) (w1 : World) :
      Reachable c →
      ChatAgent.process_message env lang c w m = .ok (r, c1, w1) →
      Reachable c1

lemma reach_inv (c : Conv) (h : Reachable c) : convInv c := by
  induction h with
  | init => exact ⟨fun _ => rfl, fun hmem => absurd hmem (by decide), Or.inl rfl⟩
  | step env lang c w m r c1 w1 _ hp ih => exact pm_inv env lang c w m r c1 w1 ih hp

/-- A detector that always fires a guided start with an inline title. -/
def detectStart (_ : String) : Option (List (String × Json)) :=
  some [("action", Json.str "start_guided_task"), ("initial_title", Json.str "Buy milk")]

/-- `testEnv` whose intent detector fires a guided start with an inline title. -/
def detectStartEnv : Env := { testEnv with detect := detectStart }

/-- A conversation mid-flow: awaiting the description with a stored title. -/
def convDesc : Conv :=
  ⟨some ConversationState.AWAITING_DESCRIPTION, { title := some "Buy milk" }⟩

/-- C2: for every reachable conversation state, IDLE implies the pending-fields
mapping is empty and every phase past AWAITING_TITLE implies a recorded title;
every processed message preserves this (reachability is closed under
`process_message`), and whenever a processed message takes a non-IDLE phase
back to IDLE, the pending fields are cleared together with the phase and the
cause is either a cancellation keyword or finalization at AWAITING_TAGS
(successful or failed). -/
theorem C2_conversation_invariant :
    (∀ c : Conv, Reachable c →
      (ChatAgent.get_state c = ConversationState.IDLE → c.pending = Pending.empty) ∧
      (ChatAgent.get_state c ∈ pastTitleStates → c.pending.title.isSome = true)) ∧
    (∀ (env : Env) (lang : String) (c : Conv) (w : World) (m : String)
       (r : Reply) (c1 : Conv) (w1 : World),
      Reachable c →
      ChatAgent.process_message env lang c w m = .ok (r, c1, w1) →
      ChatAgent.get_state c ≠ ConversationState.IDLE →
      ChatAgent.get_state c1 = ConversationState.IDLE →
      c1.pending = Pending.empty ∧
        (m.pyLower.pyStrip ∈ cancelWords ∨
         (ChatAgent.get_state c = ConversationState.AWAITING_TAGS ∧
          (r.rtype = "task_created" ∨ r.rtype = "error")))) := by
  constructor
  · intro c h
    exact ⟨(reach_inv c h).1, (reach_inv c h).2.1⟩
  · intro env lang c w m r c1 w1 hreach hp hs hidle
    exact pm_clear env lang c w m r c1 w1 (reach_inv c hreach) hs hp hidle

/-- Witness for C2 at a concrete reachable mid-flow conversation: the invariant
holds there, and the cancel keyword clears phase and pending together. -/
theorem C2_conversation_invariant_witness :
    ((ChatAgent.get_state convDesc = ConversationState.IDLE →
        convDesc.pending = Pending.empty) ∧
      (ChatAgent.get_state convDesc ∈ pastTitleStates →
        convDesc.pending.title.isSome = true)) ∧
    (Conv.cleared.pending = Pending.empty ∧
      ("cancel".pyLower.pyStrip ∈ cancelWords ∨
       (ChatAgent.get_state convDesc = ConversationState.AWAITING_TAGS ∧
        ((cancelReply "en").rtype = "task_created" ∨
         (cancelReply "en").rtype = "error")))) :=
  have hreach : Reachable convDesc :=
    Reachable.step detectStartEnv "en" conv0 world0 "add task" _ _ _ Reachable.init (by rfl)
  ⟨C2_conversation_invariant.1 convDesc hreach,
   C2_conversation_invariant.2 testEnv "en" convDesc world0 "cancel"
     (cancelReply "en") Conv.cleared world0 hreach (by rfl) (by decide) (by decide)⟩

/-- C3: in every non-IDLE state (any stored state string) and either locale,
each cancellation keyword—checked before any phase-specific handling—clears
the phase back to IDLE together with the pending fields and returns the
localized confirmation reply, leaving the effect log untouched. -/
theorem C3_cancellation (env : Env) (lang : String) (c : Conv) (w : World)
    (kw : String) (hkw : kw ∈ cancelWords)
    (hs : ChatAgent.get_state c ≠ ConversationState.IDLE) :
    ChatAgent.process_message env lang c w kw =
      .ok (cancelReply lang, Conv.cleared, w) := by
  have hlow : kw.pyLower.pyStrip ∈ cancelWords := by
    simp only [cancelWords, List.mem_cons, List.not_mem_nil, or_false] at hkw
    rcases hkw with rfl | rfl | rfl | rfl | rfl | rfl <;> decide
  have hcond : (decide (kw.pyLower.pyStrip ∈ cancelWords) &&
      decide (ChatAgent.get_state c ≠ ConversationState.IDLE)) = true := by
    simp [hlow, hs]
  simp only [ChatAgent.process_message]
  rw [if_pos hcond]

/-- Witness for C3: the Urdu cancel keyword mid-flow. -/
theorem C3_cancellation_witness :
    ChatAgent.process_message testEnv "ur"
        ⟨some ConversationState.AWAITING_PRIORITY, { title := some "X" }⟩ world0
        "منسوخ" = .ok (cancelReply "ur", Conv.cleared, world0) :=
  C3_cancellation testEnv "ur"
    ⟨some ConversationState.AWAITING_PRIORITY, { title := some "X" }⟩ world0
    "منسوخ" (by decide) (by decide)

/-- Counterexample for C4: at AWAITING_DUE_DATE an unparseable input does not
keep the phase at AWAITING_DUE_DATE; the machine records no due date but
advances to AWAITING_RECURRENCE and replies that the due date was saved. -/
theorem C4_due_date_counterexample :
    ChatAgent.process_message testEnv "en"
        ⟨some ConversationState.AWAITING_DUE_DATE,
         { title := some "X", priority := some "medium" }⟩ world0 "gibberish" =
      .ok ({ rtype := "guided_step", step := some "recurrence",
             content := "✓ Due date saved\n\n🔄 "
               ++ ChatAgent.format_recurrence_options "en" },
           ⟨some ConversationState.AWAITING_RECURRENCE,
            { title := some "X", priority := some "medium" }⟩, world0) ∧
    ConversationState.AWAITING_RECURRENCE ≠ ConversationState.AWAITING_DUE_DATE :=
  ⟨rfl, by decide⟩

/-- C4 (amended): at AWAITING_DUE_DATE, an input that is neither a cancel
keyword, a skip keyword, a relative keyword, nor parseable by the
natural-language or ISO parsers records no due-date field, but the phase
advances to AWAITING_RECURRENCE and the reply is the ordinary
due-date-saved prompt; the parse-error flag is discarded. -/
theorem C4_due_date_unparseable_advances (env : Env) (lang : String) (c : Conv)
    (w : World) (m : String)
    (hstate : ChatAgent.get_state c = ConversationState.AWAITING_DUE_DATE)
    (hnc : m.pyLower.pyStrip ∉ cancelWords)
    (hns : m.pyLower.pyStrip ∉ skipWords)
    (hrel1 : m.pyLower.pyStrip ∉ (["tomorrow", "کل"] : List String))
    (hrel2 : m.pyLower.pyStrip ∉ (["next week", "اگلا ہفتہ", "اگلے ہفتے"] : List String))
    (hnat : env.parseNaturalDate m = none)
    (hiso : env.fromIso (pyReplace m "Z" "+00:00") = none) :
    ChatAgent.process_message env lang c w m =
      .ok ({ rtype := "guided_step", step := some "recurrence",
             content := (if lang = "ur" then "✓ تاریخ محفوظ ہوگئی\n\n🔄 "
                         else "✓ Due date saved\n\n🔄 ")
               ++ ChatAgent.format_recurrence_options lang },
           c.setState ConversationState.AWAITING_RECURRENCE, w) ∧
    (Conv.setState c ConversationState.AWAITING_RECURRENCE).pending = c.pending := by
  have hsne : ChatAgent.get_state c ≠ ConversationState.IDLE := by
    rw [hstate]; decide
  have hparse : ChatAgent.parse_user_response env c.pending m "due_date" = .derror := by
    simp [ChatAgent.parse_user_response, hns, hrel1, hrel2, hnat, hiso]
  refine ⟨?_, rfl⟩
  simp only [ChatAgent.process_message]
  rw [if_neg (by simp [hnc])]
  rw [if_pos hsne]
  have hd : ChatAgent.handle_guided_flow env lang c w m = stepDueDate env lang c w m := by
    simp [ChatAgent.handle_guided_flow, hstate, ConversationState.AWAITING_TITLE,
      ConversationState.AWAITING_DESCRIPTION, ConversationState.AWAITING_CATEGORY,
      ConversationState.AWAITING_PRIORITY, ConversationState.AWAITING_DUE_DATE]
  rw [hd]
  simp [stepDueDate, hparse]

/-- Witness for C4 (amended) at a concrete unparseable input. -/
theorem C4_due_date_unparseable_advances_witness :
    ChatAgent.process_message testEnv "en"
        ⟨some ConversationState.AWAITING_DUE_DATE, { title := some "X" }⟩ world0
        "gibberish" =
      .ok ({ rtype := "guided_step", step := some "recurrence",
             content := (if "en" = "ur" then "✓ تاریخ محفوظ ہوگئی\n\n🔄 "
                         else "✓ Due date saved\n\n🔄 ")
               ++ ChatAgent.format_recurrence_options "en" },
           Conv.setState ⟨some ConversationState.AWAITING_DUE_DATE,
             { title := some "X" }⟩ ConversationState.AWAITING_RECURRENCE,
           world0) :=
  (C4_due_date_unparseable_advances testEnv "en"
    ⟨some ConversationState.AWAITING_DUE_DATE, { title := some "X" }⟩ world0
    "gibberish" (by decide) (by decide) (by decide) (by decide) (by decide)
    rfl rfl).1

/-- Counterexample for C5: an oracle failure (timeout) raised during the
completion call escapes `ChatAgent.process_message` as a raw exception. -/
theorem C5_oracle_exception_counterexample :
    ChatAgent.process_message raisingEnv "en" conv0 world0 "hello" =
      .error (.exc "timeout") := rfl

/-- C5 (amended): exceptions raised by the completion call escape the
agent-level `process_message`, but `ChatService.process_message` absorbs every
agent exception into a reply tagged `error`, and passes agent replies through
with their type tags, so no raw exception crosses the service boundary. -/
theorem C5_service_boundary (env : Env) (lang : String) (c : Conv) (w : World)
    (m : String) :
    (∀ e, ChatAgent.process_message env lang c w m = .error e →
      (ChatService.process_message env lang c w m).1.rtype = "error" ∧
      (ChatService.process_message env lang c w m).2 = (c, w)) ∧
    (∀ r c1 w1, ChatAgent.process_message env lang c w m = .ok (r, c1, w1) →
      ChatService.process_message env lang c w m =
        ({ response := r.content, rtype := r.rtype }, c1, w1)) := by
  constructor
  · intro e he
    constructor <;> simp [ChatService.process_message, he]
  · intro r c1 w1 hr
    simp [ChatService.process_message, hr]

/-- Witness for C5 (amended): the timeout raised by the oracle becomes an
error-tagged service reply. -/
theorem C5_service_boundary_witness :
    (ChatService.process_message raisingEnv "en" conv0 world0 "hello").1.rtype =
        "error" ∧
      (ChatService.process_message raisingEnv "en" conv0 world0 "hello").2 =
        (conv0, world0) :=
  (C5_service_boundary raisingEnv "en" conv0 world0 "hello").1 (.exc "timeout") rfl

lemma finalizeTagLoop_effects (env : Env) (taskId : Nat) :
    ∀ (ts : List String) (w : World),
      (finalizeTagLoop env taskId ts w).createdTasks = w.createdTasks ∧
      (finalizeTagLoop env taskId ts w).tagAttempts =
        w.tagAttempts ++
          (ts.filter (fun t => t ≠ "" && t.pyStrip ≠ "")).map (·.pyStrip) := by
  intro ts
  induction ts with
  | nil => intro w; simp [finalizeTagLoop]
  | cons t ts ih =>
      intro w
      by_cases hc : (t ≠ "" && t.pyStrip ≠ "") = true
      · simp only [Bool.and_eq_true, decide_eq_true_eq] at hc
        obtain ⟨h1, h2⟩ := hc
        cases hct : env.createTag t.pyStrip with
        | ok tagId =>
            cases hat : env.addTagToTask taskId tagId with
            | ok u =>
                simp [finalizeTagLoop, TagService.createTag, TagService.addTagToTask,
                  hct, hat, ih, h1, h2, List.filter_cons]
            | error e =>
                simp [finalizeTagLoop, TagService.createTag, TagService.addTagToTask,
                  hct, hat, ih, h1, h2, List.filter_cons]
        | error e =>
            simp [finalizeTagLoop, TagService.createTag, hct, ih, h1, h2,
              List.filter_cons]
      · simp only [Bool.and_eq_true, decide_eq_true_eq, not_and_or, not_not] at hc
        rcases hc with h0 | h0 <;>
          simp [finalizeTagLoop, h0, ih, List.filter_cons]

/-- C6: during finalization with any collected tag list, for every behavior of
the tag services (any individual creation or attachment may raise), the task
is still created, every non-blank tag is still attempted, the state is
cleared, and finalization returns the task-created success reply. -/
theorem C6_tag_failure_isolation (env : Env) (lang : String) (gs : Option String)
    (p : Pending) (w : World) (ts : List String) (tid : Nat)
    (hts : p.tags = some ts)
    (hnc : pyOptStr p.new_category_name = none)
    (hins : env.dbInsertTask (pendingTaskData env p p.category_id) = .ok tid) :
    (ChatAgent.finalize_guided_task env lang ⟨gs, p⟩ w).1.rtype = "task_created" ∧
    (ChatAgent.finalize_guided_task env lang ⟨gs, p⟩ w).2.1 = Conv.cleared ∧
    (ChatAgent.finalize_guided_task env lang ⟨gs, p⟩ w).2.2.createdTasks =
      w.createdTasks ++ [taskOf (pendingTaskData env p p.category_id) tid] ∧
    (ChatAgent.finalize_guided_task env lang ⟨gs, p⟩ w).2.2.tagAttempts =
      w.tagAttempts ++
        (ts.filter (fun t => t ≠ "" && t.pyStrip ≠ "")).map (·.pyStrip) := by
  have hfc : finalizeCategoryId env p = .ok p.category_id := by
    simp [finalizeCategoryId, hnc]
  have hct : TaskService.createTask env w (pendingTaskData env p p.category_id) =
      (.ok (taskOf (pendingTaskData env p p.category_id) tid),
       { w with createdTasks :=
           w.createdTasks ++ [taskOf (pendingTaskData env p p.category_id) tid] }) := by
    simp [TaskService.createTask, hins]
  by_cases hempty : ts.isEmpty = true
  · have hts0 : ts = [] := by
      cases ts with
      | nil => rfl
      | cons a l => simp at hempty
    subst hts0
    simp [ChatAgent.finalize_guided_task, hfc, hct, hts]
  · have hloop := finalizeTagLoop_effects env
      (taskOf (pendingTaskData env p p.category_id) tid).id ts
      { w with createdTasks :=
          w.createdTasks ++ [taskOf (pendingTaskData env p p.category_id) tid] }
    simp [ChatAgent.finalize_guided_task, hfc, hct, hts, hempty,
      hloop.1, hloop.2]

/-- Witness for C6: with a tag service that fails on the middle tag, the task
is created, all three tags are attempted, and the reply is the success one. -/
theorem C6_tag_failure_isolation_witness :
    (ChatAgent.finalize_guided_task tagFailEnv "en"
        ⟨some ConversationState.AWAITING_TAGS,
         { title := some "T", priority := some "medium",
           tags := some ["good", "bad", "also"] }⟩ world0).1.rtype =
      "task_created" ∧
    (ChatAgent.finalize_guided_task tagFailEnv "en"
        ⟨some ConversationState.AWAITING_TAGS,
         { title := some "T", priority := some "medium",
           tags := some ["good", "bad", "also"] }⟩ world0).2.1 = Conv.cleared ∧
    (ChatAgent.finalize_guided_task tagFailEnv "en"
        ⟨some ConversationState.AWAITING_TAGS,
         { title := some "T", priority := some "medium",
           tags := some ["good", "bad", "also"] }⟩ world0).2.2.createdTasks =
      world0.createdTasks ++
        [taskOf (pendingTaskData tagFailEnv
          { title := some "T", priority := some "medium",
            tags := some ["good", "bad", "also"] } none) 42] ∧
    (ChatAgent.finalize_guided_task tagFailEnv "en"
        ⟨some ConversationState.AWAITING_TAGS,
         { title := some "T", priority := some "medium",
           tags := some ["good", "bad", "also"] }⟩ world0).2.2.tagAttempts =
      world0.tagAttempts ++
        ((["good", "bad", "also"] : List String).filter
          (fun t => t ≠ "" && t.pyStrip ≠ "")).map (·.pyStrip) :=
  C6_tag_failure_isolation tagFailEnv "en" (some ConversationState.AWAITING_TAGS)
    { title := some "T", priority := some "medium",
      tags := some ["good", "bad", "also"] } world0 ["good", "bad", "also"] 42
    rfl rfl rfl

/-- Counterexample for C7: the stored category `Work` is matched by the input
`WORK` (both sides are lowercased), so name matching is case-insensitive, not
case-sensitive as claimed; a case-sensitive reading would record a brand-new
category instead. -/
theorem C7_category_match_counterexample :
    ChatAgent.parse_user_response testEnv
        { available_categories := some [⟨1, "Work", some "💼"⟩] } "WORK"
        "category" = PUR.cvalue 1 "Work" ∧
    PUR.cvalue 1 "Work" ≠ PUR.newCategory "WORK" :=
  ⟨rfl, by decide⟩

/-- Modelled from the amended claim: category input resolves first as a
1-based index into the previously offered list when it is a digit string with
a valid index, then by case-insensitive exact name match (input and stored
names lowercased), otherwise it is recorded as a brand-new category name. -/
def categoryResolutionSpec (cats : List Category) (message : String) : PUR :=
  let ml := message.pyLower.pyStrip
  match (if pyIsDigit ml = true ∧ 1 ≤ pyInt ml ∧ pyInt ml ≤ cats.length
         then cats.get? (pyInt ml - 1) else none) with
  | some cat => .cvalue cat.id cat.name
  | none =>
      match cats.find? (fun cat => cat.name.pyLower = ml) with
      | some cat => .cvalue cat.id cat.name
      | none => .newCategory message.pyStrip

lemma int_idx_guard_eq (cats : List Category) (n : Nat) :
    (if (decide (0 ≤ (n : Int) - 1) && decide ((n : Int) - 1 < (cats.length : Int)))
        = true
     then cats.get? ((n : Int) - 1).toNat else none) =
    (if 1 ≤ n ∧ n ≤ cats.length then cats.get? (n - 1) else none) := by
  by_cases h1 : 1 ≤ n
  · by_cases h2 : n ≤ cats.length
    · rw [if_pos (by simp; omega), if_pos ⟨h1, h2⟩]
      congr 1
      omega
    · rw [if_neg (by simp; omega), if_neg (fun hh => h2 hh.2)]
  · rw [if_neg (by simp; omega), if_neg (fun hh => h1 hh.1)]

/-- C7 (amended): at AWAITING_CATEGORY, a non-skip input resolves in order — a
digit string with a valid 1-based index selects from the offered list,
otherwise a case-insensitive exact name match, otherwise a brand-new category
name from the stripped input. -/
theorem C7_category_resolution (env : Env) (p : Pending) (m : String)
    (hns : m.pyLower.pyStrip ∉ skipWords) :
    ChatAgent.parse_user_response env p m "category" =
      categoryResolutionSpec (p.available_categories.getD []) m := by
  have hguard : (if pyIsDigit m.pyLower.pyStrip = true then
      (if (decide (0 ≤ (pyInt m.pyLower.pyStrip : Int) - 1) &&
          decide ((pyInt m.pyLower.pyStrip : Int) - 1 <
            ((p.available_categories.getD []).length : Int))) = true
       then (p.available_categories.getD []).get?
         ((pyInt m.pyLower.pyStrip : Int) - 1).toNat
       else none) else none) =
      (if pyIsDigit m.pyLower.pyStrip = true ∧ 1 ≤ pyInt m.pyLower.pyStrip ∧
          pyInt m.pyLower.pyStrip ≤ (p.available_categories.getD []).length
       then (p.available_categories.getD []).get? (pyInt m.pyLower.pyStrip - 1)
       else none) := by
    by_cases hd : pyIsDigit m.pyLower.pyStrip = true
    · rw [if_pos hd, int_idx_guard_eq]
      by_cases hb : 1 ≤ pyInt m.pyLower.pyStrip ∧
          pyInt m.pyLower.pyStrip ≤ (p.available_categories.getD []).length
      · rw [if_pos hb, if_pos ⟨hd, hb.1, hb.2⟩]
      · rw [if_neg hb, if_neg (fun hh => hb ⟨hh.2.1, hh.2.2⟩)]
    · rw [if_neg hd, if_neg (fun hh => hd hh.1)]
  simp only [ChatAgent.parse_user_response, categoryResolutionSpec]
  rw [if_neg hns]
  rw [hguard]
  simp

/-- Witness for C7 (amended) at a concrete numeric selection. -/
theorem C7_category_resolution_witness :
    ChatAgent.parse_user_response testEnv
        { available_categories := some [⟨1, "Work", some "💼"⟩, ⟨2, "Home", none⟩] }
        "2" "category" =
      categoryResolutionSpec [⟨1, "Work", some "💼"⟩, ⟨2, "Home", none⟩] "2" :=
  C7_category_resolution testEnv
    { available_categories := some [⟨1, "Work", some "💼"⟩, ⟨2, "Home", none⟩] }
    "2" (by decide)

/-- A completion oracle that always returns a malformed JSON action object. -/
def malformedCompletion (_ : String) : OracleOutcome :=
  .ok "\x7b\"action\": \"update_task\", \"task_id\": invalid\x7d"

/-- `testEnv` whose oracle returns a malformed JSON action object. -/
def malformedEnv : Env := { testEnv with completion := malformedCompletion }

/-- C8: JSON-action extraction takes the span from the first opening brace to
the last closing brace and returns its parse, or nothing when braces are
missing or the parse fails; the three contract examples hold, and a malformed
action object makes the whole turn fall back to a plain-text reply whose
brace-delimited fragments are stripped (here: emptied, hence the readiness
fallback). -/
theorem C8_json_extraction :
    (∀ text : String, ChatAgent.extract_json text =
      (if pyFind text openBrace ≠ -1 && pyRFind text closeBrace ≠ -1 then
        jsonLoads (pySlice text (pyFind text openBrace).toNat
          ((pyRFind text closeBrace).toNat + 1))
      else none)) ∧
    ChatAgent.extract_json "Sure! \x7b\"action\": \"complete_task\", \"task_id\": 7\x7d" =
      some (.obj [("action", .str "complete_task"), ("task_id", .num 7)]) ∧
    ChatAgent.extract_json "no braces at all" = none ∧
    ChatAgent.extract_json "\x7b\"action\": \"update_task\", \"task_id\": invalid\x7d" =
      none ∧
    ChatAgent.clean_json_from_response "en"
        "\x7b\"action\": \"update_task\", \"task_id\": invalid\x7d" =
      "I'm ready to help you. What would you like to do?" ∧
    ChatAgent.process_message malformedEnv "en" conv0 world0 "hi" =
      .ok ({ rtype := "message",
             content := "I'm ready to help you. What would you like to do?" },
           conv0, world0) :=
  ⟨fun _ => rfl, rfl, rfl, rfl, rfl, rfl⟩

/-- C9: the guided-flow step handler is total over arbitrary stored state
strings — any state outside the handled phases (AWAITING_CONFIRMATION
included) clears the state and pending fields and returns the generic
something-went-wrong message; processing a non-cancel message in such a state
does the same through `process_message`. -/
theorem C9_unknown_state_total (env : Env) (lang : String) (c : Conv)
    (w : World) (m : String) (s : String)
    (hs : ChatAgent.get_state c = s) (hmem : s ∉ guidedStates) :
    ChatAgent.handle_guided_flow env lang c w m =
      (unknownStateReply lang, Conv.cleared, w) ∧
    (s ≠ ConversationState.IDLE → m.pyLower.pyStrip ∉ cancelWords →
      ChatAgent.process_message env lang c w m =
        .ok (unknownStateReply lang, Conv.cleared, w)) := by
  simp only [guidedStates, List.mem_cons, List.not_mem_nil, or_false, not_or] at hmem
  obtain ⟨h1, h2, h3, h4, h5, h6, h7⟩ := hmem
  have hh : ChatAgent.handle_guided_flow env lang c w m =
      (unknownStateReply lang, Conv.cleared, w) := by
    simp [ChatAgent.handle_guided_flow, hs, h1, h2, h3, h4, h5, h6, h7]
  refine ⟨hh, fun hni hnc => ?_⟩
  have hsne : ChatAgent.get_state c ≠ ConversationState.IDLE := by
    rw [hs]; exact hni
  simp only [ChatAgent.process_message]
  rw [if_neg (by simp [hnc])]
  rw [if_pos hsne, hh]

/-- Witness for C9 at the defined-but-never-entered AWAITING_CONFIRMATION. -/
theorem C9_unknown_state_total_witness :
    ChatAgent.handle_guided_flow testEnv "en"
        ⟨some ConversationState.AWAITING_CONFIRMATION, { title := some "X" }⟩
        world0 "hello" = (unknownStateReply "en", Conv.cleared, world0) ∧
    ChatAgent.process_message testEnv "en"
        ⟨some ConversationState.AWAITING_CONFIRMATION, { title := some "X" }⟩
        world0 "hello" = .ok (unknownStateReply "en", Conv.cleared, world0) :=
  have h := C9_unknown_state_total testEnv "en"
    ⟨some ConversationState.AWAITING_CONFIRMATION, { title := some "X" }⟩
    world0 "hello" ConversationState.AWAITING_CONFIRMATION rfl (by decide)
  ⟨h.1, h.2 (by decide) (by decide)⟩

lemma directTagLoop_createdTasks (env : Env) (tid : Nat) :
    ∀ (xs : List Json) (w : World),
      (directTagLoop env tid xs w).2.createdTasks = w.createdTasks := by
  intro xs
  induction xs with
  | nil => intro w; simp [directTagLoop]
  | cons v vs ih =>
      intro w
      cases v with
      | str s =>
          by_cases hc : (s ≠ "" && s.pyStrip ≠ "") = true
          · simp only [Bool.and_eq_true, decide_eq_true_eq] at hc
            obtain ⟨h1, h2⟩ := hc
            cases hct : env.createTag s.pyStrip with
            | ok tagId =>
                cases hat : env.addTagToTask tid tagId with
                | ok u =>
                    simp [directTagLoop, h1, h2, TagService.createTag,
                      TagService.addTagToTask, hct, hat, ih]
                | error e =>
                    simp [directTagLoop, h1, h2, TagService.createTag,
                      TagService.addTagToTask, hct, hat]
            | error e =>
                simp [directTagLoop, h1, h2, TagService.createTag, hct]
          · simp only [Bool.and_eq_true, decide_eq_true_eq, not_and_or,
              not_not] at hc
            rcases hc with h0 | h0 <;> simp [directTagLoop, h0, ih]
      | null => simp [directTagLoop, Json.truthy, ih]
      | bool b => cases b <;> simp [directTagLoop, Json.truthy, ih]
      | num n =>
          by_cases hn : n = 0
          · simp [directTagLoop, Json.truthy, hn, ih]
          · simp [directTagLoop, Json.truthy, hn]
      | arr ys =>
          cases ys with
          | nil => simp [directTagLoop, Json.truthy, ih]
          | cons y ys => simp [directTagLoop, Json.truthy]
      | obj kvs =>
          cases kvs with
          | nil => simp [directTagLoop, Json.truthy, ih]
          | cons kv kvs => simp [directTagLoop, Json.truthy]

@[simp] lemma taskOf_id (td : TaskCreate) (tid : Nat) : (taskOf td tid).id = tid := rfl

/-- The direct create-task action payload used for C10. -/
def c10Action (t : String) (xs : List Json) : List (String × Json) :=
  [("action", .str "create_task"), ("title", .str t), ("tags", .arr xs)]

/-- The `TaskCreate` data assembled for a plain title with no description,
category, due date or recurrence and default medium priority (produced both
by the direct create-task branch and by finalization after skipping every
optional step). -/
def plainTaskData (t : String) : TaskCreate :=
  { title := t, description := none, is_completed := false,
    category_id := none, priority := .medium, due_date := none,
    recurrence_pattern := none, recurrence_interval := 1 }

/-- C10: on the direct create-task path, tag handling has no per-tag
isolation — when the non-isolated tag loop raises after the task was
inserted, the handler returns an error-type reply even though the created
task is already in the effect log, so an error reply does not imply that no
task was created. -/
theorem C10_direct_create_tag_error (env : Env) (lang : String) (c : Conv)
    (w : World) (t : String) (xs : List Json) (tid : Nat) (e : PyErr)
    (w2 : World)
    (hins : env.dbInsertTask (plainTaskData t) = .ok tid)
    (hxs : xs ≠ [])
    (hloop : directTagLoop env tid xs
        { w with createdTasks := w.createdTasks ++ [taskOf (plainTaskData t) tid] } =
      (.error e, w2)) :
    ChatAgent.execute_action env lang c w (c10Action t xs) =
      (execErrReply e, c, w2) ∧
    taskOf (plainTaskData t) tid ∈ w2.createdTasks ∧
    (execErrReply e).rtype = "error" := by
  have htruthy : (Json.arr xs).truthy = true := by
    cases xs with
    | nil => exact absurd rfl hxs
    | cons y ys => simp [Json.truthy]
  have hct : TaskService.createTask env w (plainTaskData t) =
      (.ok (taskOf (plainTaskData t) tid),
       { w with createdTasks := w.createdTasks ++ [taskOf (plainTaskData t) tid] }) := by
    simp [TaskService.createTask, hins]
  have hct2 : TaskService.createTask env w
      { title := t, description := none, is_completed := false,
        priority := TaskPriority.medium, due_date := none, category_id := none,
        recurrence_pattern := none, recurrence_interval := 1 } =
      (.ok (taskOf (plainTaskData t) tid),
       { w with createdTasks := w.createdTasks ++ [taskOf (plainTaskData t) tid] }) := by
    exact hct
  have hcall : executeCreateTask env w (c10Action t xs) =
      ((.error e : Except PyErr (Reply × World)), w2) := by
    simp [executeCreateTask, c10Action, Json.objGet, priorityToEnum, hct2,
      htruthy, hloop, taskOf_id]
  constructor
  · have hroute : ChatAgent.execute_action env lang c w (c10Action t xs) =
        (let rw0 := ChatAgent.executeOtherAction env w (c10Action t xs)
         (rw0.1, c, rw0.2)) := by
      simp [ChatAgent.execute_action, actionIs, Json.objGet, c10Action]
    rw [hroute]
    simp only [ChatAgent.executeOtherAction]
    rw [show actionIs (Json.objGet (c10Action t xs) "action") "create_task" = true
      from rfl]
    simp [hcall]
  · constructor
    · have hw2 := directTagLoop_createdTasks env tid xs
        { w with createdTasks := w.createdTasks ++ [taskOf (plainTaskData t) tid] }
      rw [hloop] at hw2
      simp at hw2
      rw [hw2]
      simp
    · simp [execErrReply]
      cases e <;> simp [execErrReply]

/-- Witness for C10: with the failing tag service, the direct create-task
action returns an error reply while the created task sits in the effect log. -/
theorem C10_direct_create_tag_error_witness :
    ChatAgent.execute_action tagFailEnv "en" conv0 world0
        (c10Action "T" [.str "good", .str "bad"]) =
      (execErrReply (.exc "duplicate tag"), conv0,
       ⟨[taskOf (plainTaskData "T") 42], ["good", "bad"], [("good", 104)],
        [(42, 104)]⟩) ∧
    taskOf (plainTaskData "T") 42 ∈
      (⟨[taskOf (plainTaskData "T") 42], ["good", "bad"], [("good", 104)],
        [(42, 104)]⟩ : World).createdTasks ∧
    (execErrReply (.exc "duplicate tag")).rtype = "error" :=
  C10_direct_create_tag_error tagFailEnv "en" conv0 world0 "T"
    [.str "good", .str "bad"] 42 (.exc "duplicate tag") _ rfl (by simp) (by rfl)

lemma pm_guided (env : Env) (lang : String) (c : Conv) (w : World) (m : String)
    (hnc : m.pyLower.pyStrip ∉ cancelWords)
    (hs : ChatAgent.get_state c ≠ ConversationState.IDLE) :
    ChatAgent.process_message env lang c w m =
      .ok (ChatAgent.handle_guided_flow env lang c w m) := by
  simp only [ChatAgent.process_message]
  rw [if_neg (by simp [hnc]), if_pos hs]

lemma handle_at_description (env : Env) (lang : String) (p : Pending) (w : World)
    (m : String) :
    ChatAgent.handle_guided_flow env lang
        ⟨some ConversationState.AWAITING_DESCRIPTION, p⟩ w m =
      stepDescription env lang ⟨some ConversationState.AWAITING_DESCRIPTION, p⟩ w m := by
  simp [ChatAgent.handle_guided_flow, ChatAgent.get_state,
    ConversationState.AWAITING_TITLE, ConversationState.AWAITING_DESCRIPTION,
    ConversationState.IDLE]

lemma handle_at_category (env : Env) (lang : String) (p : Pending) (w : World)
    (m : String) :
    ChatAgent.handle_guided_flow env lang
        ⟨some ConversationState.AWAITING_CATEGORY, p⟩ w m =
      stepCategory env lang ⟨some ConversationState.AWAITING_CATEGORY, p⟩ w m := by
  simp [ChatAgent.handle_guided_flow, ChatAgent.get_state,
    ConversationState.AWAITING_TITLE, ConversationState.AWAITING_DESCRIPTION,
    ConversationState.AWAITING_CATEGORY, ConversationState.IDLE]

lemma handle_at_priority (env : Env) (lang : String) (p : Pending) (w : World)
    (m : String) :
    ChatAgent.handle_guided_flow env lang
        ⟨some ConversationState.AWAITING_PRIORITY, p⟩ w m =
      stepPriority env lang ⟨some ConversationState.AWAITING_PRIORITY, p⟩ w m := by
  simp [ChatAgent.handle_guided_flow, ChatAgent.get_state,
    ConversationState.AWAITING_TITLE, ConversationState.AWAITING_DESCRIPTION,
    ConversationState.AWAITING_CATEGORY, ConversationState.AWAITING_PRIORITY,
    ConversationState.IDLE]

lemma handle_at_due_date (env : Env) (lang : String) (p : Pending) (w : World)
    (m : String) :
    ChatAgent.handle_guided_flow env lang
        ⟨some ConversationState.AWAITING_DUE_DATE, p⟩ w m =
      stepDueDate env lang ⟨some ConversationState.AWAITING_DUE_DATE, p⟩ w m := by
  simp [ChatAgent.handle_guided_flow, ChatAgent.get_state,
    ConversationState.AWAITING_TITLE, ConversationState.AWAITING_DESCRIPTION,
    ConversationState.AWAITING_CATEGORY, ConversationState.AWAITING_PRIORITY,
    ConversationState.AWAITING_DUE_DATE, ConversationState.IDLE]

lemma handle_at_recurrence (env : Env) (lang : String) (p : Pending) (w : World)
    (m : String) :
    ChatAgent.handle_guided_flow env lang
        ⟨some ConversationState.AWAITING_RECURRENCE, p⟩ w m =
      stepRecurrence env lang ⟨some ConversationState.AWAITING_RECURRENCE, p⟩ w m := by
  simp [ChatAgent.handle_guided_flow, ChatAgent.get_state,
    ConversationState.AWAITING_TITLE, ConversationState.AWAITING_DESCRIPTION,
    ConversationState.AWAITING_CATEGORY, ConversationState.AWAITING_PRIORITY,
    ConversationState.AWAITING_DUE_DATE, ConversationState.AWAITING_RECURRENCE,
    ConversationState.IDLE]

lemma handle_at_tags (env : Env) (lang : String) (p : Pending) (w : World)
    (m : String) :
    ChatAgent.handle_guided_flow env lang
        ⟨some ConversationState.AWAITING_TAGS, p⟩ w m =
      stepTags env lang ⟨some ConversationState.AWAITING_TAGS, p⟩ w m := by
  simp [ChatAgent.handle_guided_flow, ChatAgent.get_state,
    ConversationState.AWAITING_TITLE, ConversationState.AWAITING_DESCRIPTION,
    ConversationState.AWAITING_CATEGORY, ConversationState.AWAITING_PRIORITY,
    ConversationState.AWAITING_DUE_DATE, ConversationState.AWAITING_RECURRENCE,
    ConversationState.AWAITING_TAGS, ConversationState.IDLE]

lemma pm_skip_description (env : Env) (lang : String) (p : Pending) (w : World) :
    ∃ r, ChatAgent.process_message env lang
        ⟨some ConversationState.AWAITING_DESCRIPTION, p⟩ w "skip" =
      .ok (r, ⟨some ConversationState.AWAITING_CATEGORY,
        { p with available_categories := some (ChatAgent.get_available_categories env) }⟩,
        w) := by
  apply Exists.intro
  rw [pm_guided env lang _ w "skip" (by decide)
    (by simp [ChatAgent.get_state, ConversationState.AWAITING_DESCRIPTION,
      ConversationState.IDLE])]
  rw [handle_at_description]
  have hparse : ChatAgent.parse_user_response env p "skip" "description" = .skip := rfl
  have hgen : generateKeywords.any (fun kw => pyIn kw ("skip".pyLower.pyStrip)) = false := rfl
  simp [stepDescription, hparse, hgen, Conv.setState, Conv.updPending]
  rfl

lemma pm_skip_category (env : Env) (lang : String) (p : Pending) (w : World) :
    ∃ r, ChatAgent.process_message env lang
        ⟨some ConversationState.AWAITING_CATEGORY, p⟩ w "skip" =
      .ok (r, ⟨some ConversationState.AWAITING_PRIORITY, p⟩, w) := by
  apply Exists.intro
  rw [pm_guided env lang _ w "skip" (by decide)
    (by simp [ChatAgent.get_state, ConversationState.AWAITING_CATEGORY,
      ConversationState.IDLE])]
  rw [handle_at_category]
  have hparse : ChatAgent.parse_user_response env p "skip" "category" = .skip := rfl
  simp [stepCategory, hparse, Conv.setState]
  rfl

lemma pm_skip_priority (env : Env) (lang : String) (p : Pending) (w : World) :
    ∃ r, ChatAgent.process_message env lang
        ⟨some ConversationState.AWAITING_PRIORITY, p⟩ w "skip" =
      .ok (r, ⟨some ConversationState.AWAITING_DUE_DATE,
        { p with priority := some "medium" }⟩, w) := by
  apply Exists.intro
  rw [pm_guided env lang _ w "skip" (by decide)
    (by simp [ChatAgent.get_state, ConversationState.AWAITING_PRIORITY,
      ConversationState.IDLE])]
  rw [handle_at_priority]
  have hparse : ChatAgent.parse_user_response env p "skip" "priority" = .skip := rfl
  simp [stepPriority, hparse, Conv.setState, Conv.updPending]
  rfl

lemma pm_skip_due_date (env : Env) (lang : String) (p : Pending) (w : World) :
    ∃ r, ChatAgent.process_message env lang
        ⟨some ConversationState.AWAITING_DUE_DATE, p⟩ w "skip" =
      .ok (r, ⟨some ConversationState.AWAITING_RECURRENCE, p⟩, w) := by
  apply Exists.intro
  rw [pm_guided env lang _ w "skip" (by decide)
    (by simp [ChatAgent.get_state, ConversationState.AWAITING_DUE_DATE,
      ConversationState.IDLE])]
  rw [handle_at_due_date]
  have hparse : ChatAgent.parse_user_response env p "skip" "due_date" = .skip := rfl
  simp [stepDueDate, hparse, Conv.setState]
  rfl

lemma pm_skip_recurrence (env : Env) (lang : String) (p : Pending) (w : World) :
    ∃ r, ChatAgent.process_message env lang
        ⟨some ConversationState.AWAITING_RECURRENCE, p⟩ w "skip" =
      .ok (r, ⟨some ConversationState.AWAITING_TAGS, p⟩, w) := by
  apply Exists.intro
  rw [pm_guided env lang _ w "skip" (by decide)
    (by simp [ChatAgent.get_state, ConversationState.AWAITING_RECURRENCE,
      ConversationState.IDLE])]
  rw [handle_at_recurrence]
  have hparse : ChatAgent.parse_user_response env p "skip" "recurrence" = .skip := rfl
  simp [stepRecurrence, hparse, Conv.setState]
  rfl

lemma pm_skip_tags_plain (env : Env) (lang : String) (w : World) (tt : String)
    (cats : List Category) (tid : Nat)
    (hins : env.dbInsertTask (plainTaskData tt) = .ok tid) :
    ∃ r, ChatAgent.process_message env lang
        ⟨some ConversationState.AWAITING_TAGS,
         { title := some tt, priority := some "medium",
           available_categories := some cats }⟩ w "skip" =
      .ok (r, Conv.cleared,
        { w with createdTasks := w.createdTasks ++ [taskOf (plainTaskData tt) tid] }) ∧
      r.rtype = "task_created" := by
  have hpd : pendingTaskData env
      { title := some tt, priority := some "medium",
        available_categories := some cats } none = plainTaskData tt := rfl
  have hct : TaskService.createTask env w (plainTaskData tt) =
      (.ok (taskOf (plainTaskData tt) tid),
       { w with createdTasks := w.createdTasks ++ [taskOf (plainTaskData tt) tid] }) := by
    simp [TaskService.createTask, hins]
  apply Exists.intro
  constructor
  · rw [pm_guided env lang _ w "skip" (by decide)
      (by simp [ChatAgent.get_state, ConversationState.AWAITING_TAGS,
        ConversationState.IDLE])]
    rw [handle_at_tags]
    have hparse : ChatAgent.parse_user_response env
        { title := some tt, priority := some "medium",
          available_categories := some cats } "skip" "tags" = .skip := rfl
    have hfc : finalizeCategoryId env
        { title := some tt, priority := some "medium",
          available_categories := some cats } = .ok none := rfl
    simp only [stepTags, hparse]
    simp [ChatAgent.finalize_guided_task, hfc, hpd, hct]
    rfl
  · rfl

lemma exec_start_inline (env : Env) (lang t : String) (ht : t.pyStrip ≠ "") :
    ChatAgent.execute_action env lang conv0 world0
      [("action", Json.str "start_guided_task"), ("initial_title", Json.str t)] =
      (startWithTitleReply lang t.pyStrip,
       ⟨some ConversationState.AWAITING_DESCRIPTION, { title := some t.pyStrip }⟩,
       world0) := by
  have hfield : getStrField
      [("action", Json.str "start_guided_task"), ("initial_title", Json.str t)]
      "initial_title" "" = .ok t := rfl
  have hact : actionIs (Json.objGet
      [("action", Json.str "start_guided_task"), ("initial_title", Json.str t)]
      "action") "start_guided_task" = true := rfl
  simp [ChatAgent.execute_action, hact, hfield, ht, Conv.setState,
    Conv.updPending, conv0]

/-- The full skip-everything scenario: a guided start with an inline title
followed by six consecutive "skip" messages, each turn resuming from the
conversation and effect log the previous turn produced. -/
def skipAll (env : Env) (lang t : String) : Except PyErr (Reply × Conv × World) :=
  let s0 := ChatAgent.execute_action env lang conv0 world0
    [("action", Json.str "start_guided_task"), ("initial_title", Json.str t)]
  (ChatAgent.process_message env lang s0.2.1 s0.2.2 "skip").bind fun s1 =>
  (ChatAgent.process_message env lang s1.2.1 s1.2.2 "skip").bind fun s2 =>
  (ChatAgent.process_message env lang s2.2.1 s2.2.2 "skip").bind fun s3 =>
  (ChatAgent.process_message env lang s3.2.1 s3.2.2 "skip").bind fun s4 =>
  (ChatAgent.process_message env lang s4.2.1 s4.2.2 "skip").bind fun s5 =>
  ChatAgent.process_message env lang s5.2.1 s5.2.2 "skip"

/-- C1: starting a guided flow with an inline title and replying "skip" at
every subsequent step finalizes exactly one task whose title is the stripped
inline title and whose priority is medium, with no description, due date,
category, recurrence or tags, and leaves the conversation at IDLE with empty
pending fields. -/
theorem C1_inline_title_skip_roundtrip (env : Env) (lang t : String) (tid : Nat)
    (ht : t.pyStrip ≠ "")
    (hins : env.dbInsertTask (plainTaskData t.pyStrip) = .ok tid) :
    ∃ r, skipAll env lang t =
        .ok (r, Conv.cleared,
          { createdTasks := [taskOf (plainTaskData t.pyStrip) tid] }) ∧
      r.rtype = "task_created" ∧
      (taskOf (plainTaskData t.pyStrip) tid).title = t.pyStrip ∧
      (taskOf (plainTaskData t.pyStrip) tid).priority = "medium" ∧
      (taskOf (plainTaskData t.pyStrip) tid).due_date = none ∧
      (taskOf (plainTaskData t.pyStrip) tid).category_id = none ∧
      (taskOf (plainTaskData t.pyStrip) tid).recurrence_pattern = none ∧
      (taskOf (plainTaskData t.pyStrip) tid).description = none ∧
      Conv.cleared = ⟨some ConversationState.IDLE, Pending.empty⟩ := by
  have h0 := exec_start_inline env lang t ht
  obtain ⟨r1, h1⟩ := pm_skip_description env lang
    { title := some t.pyStrip } world0
  obtain ⟨r2, h2⟩ := pm_skip_category env lang
    { title := some t.pyStrip,
      available_categories := some (ChatAgent.get_available_categories env) } world0
  obtain ⟨r3, h3⟩ := pm_skip_priority env lang
    { title := some t.pyStrip,
      available_categories := some (ChatAgent.get_available_categories env) } world0
  obtain ⟨r4, h4⟩ := pm_skip_due_date env lang
    { title := some t.pyStrip, priority := some "medium",
      available_categories := some (ChatAgent.get_available_categories env) } world0
  obtain ⟨r5, h5⟩ := pm_skip_recurrence env lang
    { title := some t.pyStrip, priority := some "medium",
      available_categories := some (ChatAgent.get_available_categories env) } world0
  obtain ⟨r6, h6, hr6⟩ := pm_skip_tags_plain env lang world0 t.pyStrip
    (ChatAgent.get_available_categories env) tid hins
  refine ⟨r6, ?_, hr6, rfl, rfl, rfl, rfl, rfl, rfl, rfl⟩
  simp only [skipAll, h0]
  simp only [h1, Except.bind]
  simp only [h2, Except.bind]
  simp only [h3, Except.bind]
  simp only [h4, Except.bind]
  simp only [h5, Except.bind]
  rw [h6]
  simp [world0]

/-- Witness for C1 at the inline title `Buy milk` in the all-success
environment. -/
theorem C1_inline_title_skip_roundtrip_witness :
    ∃ r, skipAll testEnv "en" "Buy milk" =
        .ok (r, Conv.cleared,
          { createdTasks := [taskOf (plainTaskData "Buy milk".pyStrip) 42] }) ∧
      r.rtype = "task_created" ∧
      (taskOf (plainTaskData "Buy milk".pyStrip) 42).title = "Buy milk".pyStrip ∧
      (taskOf (plainTaskData "Buy milk".pyStrip) 42).priority = "medium" ∧
      (taskOf (plainTaskData "Buy milk".pyStrip) 42).due_date = none ∧
      (taskOf (plainTaskData "Buy milk".pyStrip) 42).category_id = none ∧
      (taskOf (plainTaskData "Buy milk".pyStrip) 42).recurrence_pattern = none ∧
      (taskOf (plainTaskData "Buy milk".pyStrip) 42).description = none ∧
      Conv.cleared = ⟨some ConversationState.IDLE, Pending.empty⟩ :=
  C1_inline_title_skip_roundtrip testEnv "en" "Buy milk" 42 (by decide) rfl
